import Mathlib

/-!
Verification of the workflow/task-scheduling core of AfundiOS
(`backend/core/agents/planner.py` and `backend/core/agents/orchestrator.py`),
as a shallow embedding in Lean 4.

Modelling conventions:
* Python `dict`s (which preserve insertion order) are modelled as association
  lists `List (String × α)`; assignment replaces in place when the key exists
  and appends otherwise, matching CPython semantics.
* `datetime.now()` is modelled by an explicit `now : Nat` argument supplied to
  every top-level operation that reads the clock; the claims under scrutiny
  never compare timestamps, only test whether they are set.
* Exceptions are modelled with `Except String`; they appear exactly where the
  Python code can raise out of the modelled scope (action handlers, and the
  `RuntimeError` scheduling-deadlock raise in the execution strategies).
* Heterogeneous Python values (task parameters, handler result maps) are
  modelled by the inductive `Value` below.
-/

namespace AfundiOS

/-- Task execution status (`TaskStatus` in planner.py). -/
inductive TaskStatus where
  | pending
  | ready
  | inProgress
  | completed
  | failed
  | blocked
deriving DecidableEq, Repr

/-- Task priority levels (`TaskPriority` in planner.py). -/
inductive TaskPriority where
  | low
  | medium
  | high
  | critical
deriving DecidableEq, Repr

/-- Heterogeneous Python values appearing in parameter / result maps.
Only the shapes actually used by the planner templates and the orchestrator
action handlers are represented: strings, ints, bools, lists of strings, and
nested string-keyed maps (used by the default handler to echo parameters). -/
inductive Value where
  | s (v : String)
  | i (v : Int)
  | b (v : Bool)
  | strs (v : List String)
  | dict (v : List (String × Value))

/-- A Python `dict` of values, in insertion order. -/
def Params := List (String × Value)

/-- Python truthiness for the `Value` shapes above
(`if task_result.get("output")` style tests). -/
def Value.truthy : Value → Bool
  | .s v => v ≠ ""
  | .i v => v ≠ 0
  | .b v => v
  | .strs v => !v.isEmpty
  | .dict v => !v.isEmpty

/-- Python `str()` for the value shapes that get interpolated into
handler output strings (only ints occur in practice). -/
def Value.str : Value → String
  | .s v => v
  | .i v => toString v
  | .b true => "True"
  | .b false => "False"
  | .strs _ => "[...]"
  | .dict _ => "{...}"

/-- Association-list lookup: `d.get(k)` on a Python dict (keys are unique in
a dict, so first-match lookup is exact). -/
def alistGet {α : Type} : List (String × α) → String → Option α
  | [], _ => none
  | p :: l, k => if p.1 = k then some p.2 else alistGet l k

/-- `d.get(k, dflt)` on a Python dict. -/
def alistGetD {α : Type} (l : List (String × α)) (k : String) (dflt : α) : α :=
  (alistGet l k).getD dflt

/-- In-place mutation of the value stored under an existing key
(Python mutates the object found by `d.get(k)`; absent keys are untouched). -/
def alistModify {α : Type} : List (String × α) → String → (α → α) → List (String × α)
  | [], _, _ => []
  | p :: l, k, f => (if p.1 = k then (p.1, f p.2) else p) :: alistModify l k f

/-- Python dict assignment `d[k] = v`: replaces in place if the key exists,
appends otherwise. -/
def alistPut {α : Type} (l : List (String × α)) (k : String) (v : α) : List (String × α) :=
  if (alistGet l k).isSome then alistModify l k (fun _ => v) else l ++ [(k, v)]

/-- `Task` dataclass from planner.py.  Timestamps are clock ticks (`Nat`). -/
structure Task where
  id : String
  name : String := ""
  description : String := ""
  objective : String := ""
  action : String := ""
  parameters : Params := []
  priority : TaskPriority := .medium
  dependencies : List String := []
  status : TaskStatus := .pending
  estimated_duration_seconds : Int := 30
  created_at : Nat := 0
  started_at : Option Nat := none
  completed_at : Option Nat := none
  result : Option Params := none
  error : Option String := none

/-- `Workflow` dataclass from planner.py.  The task map is an insertion-ordered
association list keyed by task ID; `task_order` is kept separately exactly as
in the source. -/
structure Workflow where
  id : String
  goal : String := ""
  description : String := ""
  tasks : List (String × Task) := []
  task_order : List String := []
  status : String := "planning"
  created_at : Nat := 0
  started_at : Option Nat := none
  completed_at : Option Nat := none
  estimated_total_duration : Int := 0
  actual_duration : Option Int := none
  metadata : Params := []

/-- `Workflow.get_task`. -/
def Workflow.get_task (wf : Workflow) (task_id : String) : Option Task :=
  alistGet wf.tasks task_id

/-- The fixed priority ranking used by `get_ready_tasks`
(`priority_order` dict in the source; `.get(t.priority, 2)` never falls
through to the default because the enum is total). -/
def priorityRank : TaskPriority → Nat
  | .critical => 0
  | .high => 1
  | .medium => 2
  | .low => 3

/-- Dependency test of `get_ready_tasks`: every dependency task's status is
COMPLETED.  The source indexes `self.tasks[dep_id]` directly, which raises
`KeyError` on a dangling dependency ID; here a dangling ID yields `false`.
All theorems below that touch readiness therefore assume the §3 invariant
that dependency IDs refer to tasks present in the same workflow, under which
the two semantics agree. -/
def depsMet (tasks : List (String × Task)) (t : Task) : Bool :=
  t.dependencies.all (fun dep_id =>
    match alistGet tasks dep_id with
    | some dep => dep.status == .completed
    | none => false)

/-- Python's `sorted` is a stable sort; for a key function ranging over
{0,1,2,3} its output is exactly the concatenation of the key-equality
buckets in increasing key order, each bucket in input order. -/
def sortByPriorityRank (l : List Task) : List Task :=
  (l.filter (fun t => priorityRank t.priority == 0)) ++
  (l.filter (fun t => priorityRank t.priority == 1)) ++
  (l.filter (fun t => priorityRank t.priority == 2)) ++
  (l.filter (fun t => priorityRank t.priority == 3))

/-- `Workflow.get_ready_tasks`: tasks whose status is READY or PENDING and
whose dependencies are all COMPLETED, sorted by priority. -/
def Workflow.get_ready_tasks (wf : Workflow) : List Task :=
  let ready := (wf.tasks.map Prod.snd).filter (fun t =>
    (t.status == .ready || t.status == .pending) && depsMet wf.tasks t)
  sortByPriorityRank ready

/-- Return type of `Workflow.get_progress`.  The completion percentage is a
float in the source; it is modelled as a rational. -/
structure Progress where
  total : Nat
  completed : Nat
  failed : Nat
  in_progress : Nat
  blocked : Nat
  pending : Int
  completion_percentage : Rat
deriving DecidableEq, Repr

/-- `Workflow.get_progress`. -/
def Workflow.get_progress (wf : Workflow) : Progress :=
  let ts := wf.tasks.map Prod.snd
  let total := ts.length
  let completed := (ts.filter (fun t => t.status == .completed)).length
  let failed := (ts.filter (fun t => t.status == .failed)).length
  let in_progress := (ts.filter (fun t => t.status == .inProgress)).length
  let blocked := (ts.filter (fun t => t.status == .blocked)).length
  { total := total
    completed := completed
    failed := failed
    in_progress := in_progress
    blocked := blocked
    pending := (total : Int) - completed - failed - in_progress - blocked
    completion_percentage :=
      if total > 0 then (completed : Rat) / (total : Rat) * 100 else 0 }

/-! ## Planner (`PlannerAgent` in planner.py) -/

/-- ASCII lowercasing of a character (`str.lower()`; all goal strings under
scrutiny are ASCII). -/
def charLower (c : Char) : Char :=
  if 'A' ≤ c && c ≤ 'Z' then Char.ofNat (c.toNat + 32) else c

/-- `goal.lower()`. -/
def strLower (s : String) : String :=
  String.mk (s.data.map charLower)

/-- Does `hay` start with `needle`? -/
def startsWithChars : List Char → List Char → Bool
  | [], _ => true
  | _ :: _, [] => false
  | a :: as, b :: bs => a == b && startsWithChars as bs

/-- Python substring containment `needle in hay`. -/
def containsChars (needle : List Char) : List Char → Bool
  | [] => startsWithChars needle []
  | b :: bs => startsWithChars needle (b :: bs) || containsChars needle bs

/-- `word in goal_lower` for strings. -/
def strIn (needle hay : String) : Bool :=
  containsChars needle.data hay.data

/-- `PlannerAgent` mutable state: the workflow registry and the task ID
counter. -/
structure PlannerAgent where
  workflows : List (String × Workflow) := []
  task_counter : Nat := 0

/-- `PlannerAgent._next_task_id`: bump the counter and render
`"task_{n}"`; returns the fresh ID with the updated state. -/
def nextTaskId (st : PlannerAgent) : String × PlannerAgent :=
  let n := st.task_counter + 1
  ("task_" ++ toString n, { st with task_counter := n })

/-- `PlannerAgent._generate_workflow_id`: `"workflow_{timestamp}_{count+1}"`;
the `strftime` timestamp is modelled by the supplied clock tick. -/
def generateWorkflowId (st : PlannerAgent) (now : Nat) : String :=
  "workflow_" ++ toString now ++ "_" ++ toString (st.workflows.length + 1)

/-- `PlannerAgent._create_briefing_tasks`. -/
def createBriefingTasks (st : PlannerAgent) (now : Nat) : List Task × PlannerAgent :=
  let (id1, st) := nextTaskId st
  let (id2, st) := nextTaskId st
  let (id3, st) := nextTaskId st
  let (id4, st) := nextTaskId st
  ([{ id := id1, name := "Retrieve Documents",
      description := "Fetch relevant documents and chunks",
      objective := "Gather source material for briefing",
      action := "query_docs",
      parameters := [("query_type", .s "broad"), ("limit", .i 20)],
      priority := .high, estimated_duration_seconds := 10, created_at := now },
    { id := id2, name := "Extract Key Points",
      description := "Identify and extract key information",
      objective := "Distill content into main points",
      action := "extract_key_points",
      parameters := [("method", .s "semantic"), ("max_points", .i 10)],
      priority := .high, estimated_duration_seconds := 15, created_at := now },
    { id := id3, name := "Synthesize Summary",
      description := "Generate comprehensive summary",
      objective := "Create cohesive briefing text",
      action := "synthesize",
      parameters := [("style", .s "professional"), ("length", .s "medium")],
      priority := .high, estimated_duration_seconds := 20, created_at := now },
    { id := id4, name := "Format Output",
      description := "Structure briefing for presentation",
      objective := "Prepare formatted briefing",
      action := "format",
      parameters := [("format", .s "markdown")],
      priority := .medium, estimated_duration_seconds := 10, created_at := now }],
   st)

/-- `PlannerAgent._create_analysis_tasks`. -/
def createAnalysisTasks (st : PlannerAgent) (now : Nat) : List Task × PlannerAgent :=
  let (id1, st) := nextTaskId st
  let (id2, st) := nextTaskId st
  let (id3, st) := nextTaskId st
  ([{ id := id1, name := "Gather Data",
      description := "Collect relevant information",
      objective := "Assemble analysis source material",
      action := "query_docs",
      parameters := [("query_type", .s "specific"), ("limit", .i 30)],
      priority := .high, estimated_duration_seconds := 15, created_at := now },
    { id := id2, name := "Identify Patterns",
      description := "Find patterns and relationships",
      objective := "Discover key insights",
      action := "analyze_patterns",
      parameters := [("method", .s "graph_analysis")],
      priority := .high, estimated_duration_seconds := 25, created_at := now },
    { id := id3, name := "Generate Insights",
      description := "Create analytical summary",
      objective := "Produce actionable insights",
      action := "synthesize",
      parameters := [("style", .s "analytical"), ("include_recommendations", .b true)],
      priority := .medium, estimated_duration_seconds := 20, created_at := now }],
   st)

/-- `PlannerAgent._create_retrieval_tasks`. -/
def createRetrievalTasks (st : PlannerAgent) (now : Nat) : List Task × PlannerAgent :=
  let (id1, st) := nextTaskId st
  let (id2, st) := nextTaskId st
  let (id3, st) := nextTaskId st
  ([{ id := id1, name := "Search Documents",
      description := "Query document collection",
      objective := "Find matching documents",
      action := "query_docs",
      parameters := [("enable_rerank", .b true), ("limit", .i 10)],
      priority := .high, estimated_duration_seconds := 10, created_at := now },
    { id := id2, name := "Rank Results",
      description := "Rank by relevance",
      objective := "Order results by importance",
      action := "rerank",
      parameters := [("method", .s "cross_encoder")],
      priority := .medium, estimated_duration_seconds := 5, created_at := now },
    { id := id3, name := "Format Results",
      description := "Prepare results for output",
      objective := "Create formatted result set",
      action := "format",
      parameters := [("format", .s "json")],
      priority := .low, estimated_duration_seconds := 5, created_at := now }],
   st)

/-- `PlannerAgent._create_generation_tasks`. -/
def createGenerationTasks (st : PlannerAgent) (now : Nat) : List Task × PlannerAgent :=
  let (id1, st) := nextTaskId st
  let (id2, st) := nextTaskId st
  let (id3, st) := nextTaskId st
  ([{ id := id1, name := "Plan Content",
      description := "Outline content structure",
      objective := "Create content plan",
      action := "plan",
      parameters := [("elements", .strs ["intro", "body", "conclusion"])],
      priority := .high, estimated_duration_seconds := 10, created_at := now },
    { id := id2, name := "Generate Content",
      description := "Create content using LLM",
      objective := "Produce text content",
      action := "synthesize",
      parameters := [("style", .s "professional"), ("include_examples", .b true)],
      priority := .high, estimated_duration_seconds := 20, created_at := now },
    { id := id3, name := "Review Content",
      description := "QA and refinement",
      objective := "Ensure quality output",
      action := "review",
      parameters := [("check_quality", .b true)],
      priority := .medium, estimated_duration_seconds := 15, created_at := now }],
   st)

/-- `PlannerAgent._create_update_tasks`. -/
def createUpdateTasks (st : PlannerAgent) (now : Nat) : List Task × PlannerAgent :=
  let (id1, st) := nextTaskId st
  let (id2, st) := nextTaskId st
  let (id3, st) := nextTaskId st
  ([{ id := id1, name := "Check Updates",
      description := "Scan for new information",
      objective := "Identify changed content",
      action := "check_updates",
      parameters := [("check_type", .s "new_documents")],
      priority := .high, estimated_duration_seconds := 10, created_at := now },
    { id := id2, name := "Process Updates",
      description := "Incorporate new information",
      objective := "Update knowledge base",
      action := "process_updates",
      parameters := [("merge_strategy", .s "append")],
      priority := .high, estimated_duration_seconds := 20, created_at := now },
    { id := id3, name := "Verify Changes",
      description := "Validate update integrity",
      objective := "Ensure consistency",
      action := "verify",
      parameters := [("verify_type", .s "consistency")],
      priority := .medium, estimated_duration_seconds := 10, created_at := now }],
   st)

/-- `PlannerAgent._create_default_tasks`. -/
def createDefaultTasks (st : PlannerAgent) (now : Nat) (goal : String) :
    List Task × PlannerAgent :=
  let (id1, st) := nextTaskId st
  let (id2, st) := nextTaskId st
  let (id3, st) := nextTaskId st
  ([{ id := id1, name := "Analyze Goal",
      description := "Break down: " ++ goal,
      objective := "Understand requirements",
      action := "analyze",
      parameters := [("goal", .s goal)],
      priority := .high, estimated_duration_seconds := 5, created_at := now },
    { id := id2, name := "Execute",
      description := "Perform main action",
      objective := "Accomplish goal",
      action := "execute",
      parameters := [("goal", .s goal)],
      priority := .high, estimated_duration_seconds := 30, created_at := now },
    { id := id3, name := "Validate Results",
      description := "Check execution success",
      objective := "Ensure goal achieved",
      action := "validate",
      parameters := [("goal", .s goal)],
      priority := .medium, estimated_duration_seconds := 10, created_at := now }],
   st)

/-- `PlannerAgent._decompose_goal`: keyword-family pattern matching over the
lowercased goal; each matching family appends its template; the default
template applies only when nothing matched. -/
def decomposeGoal (st : PlannerAgent) (now : Nat) (goal : String) :
    List Task × PlannerAgent :=
  let goalLower := strLower goal
  let (t1, st) :=
    if strIn "briefing" goalLower || strIn "summary" goalLower ||
       strIn "report" goalLower then
      createBriefingTasks st now
    else ([], st)
  let (t2, st) :=
    if strIn "analyze" goalLower || strIn "analysis" goalLower ||
       strIn "examine" goalLower then
      createAnalysisTasks st now
    else ([], st)
  let (t3, st) :=
    if strIn "search" goalLower || strIn "find" goalLower ||
       strIn "retrieve" goalLower || strIn "query" goalLower then
      createRetrievalTasks st now
    else ([], st)
  let (t4, st) :=
    if strIn "generate" goalLower || strIn "create" goalLower ||
       strIn "write" goalLower then
      createGenerationTasks st now
    else ([], st)
  let (t5, st) :=
    if strIn "update" goalLower || strIn "refresh" goalLower ||
       strIn "sync" goalLower then
      createUpdateTasks st now
    else ([], st)
  let tasks := t1 ++ t2 ++ t3 ++ t4 ++ t5
  if tasks.isEmpty then createDefaultTasks st now goal else (tasks, st)

/-- The `action_sequences` table of `_resolve_dependencies`: a producing
action mapped to the actions that logically consume it. -/
def actionSequences : List (String × List String) :=
  [("query_docs", ["rerank", "format"]),
   ("extract_key_points", ["synthesize"]),
   ("analyze_patterns", ["synthesize"]),
   ("plan", ["synthesize"]),
   ("generate_content", ["review"]),
   ("check_updates", ["process_updates"]),
   ("process_updates", ["verify"])]

/-- `PlannerAgent._resolve_dependencies`: all-pairs scan.  The outer Python
loop iterates over the task objects captured up front but reads only their
(immutable) `action` and `id`; the inner loop mutates the dependency lists in
place, so the fold threads the evolving task list. -/
def resolveDependencies (tasks : List Task) : List Task :=
  (tasks.map (fun t => (t.action, t.id))).foldl
    (fun acc p =>
      match alistGet actionSequences p.1 with
      | none => acc
      | some dependent_actions =>
        acc.map (fun ot =>
          if dependent_actions.contains ot.action && ot.id != p.2 &&
             !(ot.dependencies.contains p.2) then
            { ot with dependencies := ot.dependencies ++ [p.2] }
          else ot))
    tasks

/-- `PlannerAgent._calculate_duration`: plain sum of per-task estimates. -/
def calculateDuration (wf : Workflow) : Int :=
  if wf.tasks.isEmpty then 0
  else ((wf.tasks.map Prod.snd).map Task.estimated_duration_seconds).sum

/-- `PlannerAgent.plan_workflow`: decompose, wire dependencies, estimate
duration, mark `ready`, store.  Returns the stored workflow and the updated
planner state. -/
def planWorkflow (st : PlannerAgent) (now : Nat) (goal description : String)
    (context : Option Params) : Workflow × PlannerAgent :=
  let workflow_id := generateWorkflowId st now
  let (tasks, st) := decomposeGoal st now goal
  let tasks := resolveDependencies tasks
  let wf : Workflow :=
    { id := workflow_id, goal := goal, description := description,
      tasks := tasks.map (fun t => (t.id, t)),
      task_order := tasks.map Task.id,
      created_at := now,
      metadata := [("initial_context", .dict (context.getD []))] }
  let wf := { wf with estimated_total_duration := calculateDuration wf }
  let wf := { wf with status := "ready" }
  (wf, { st with workflows := alistPut st.workflows workflow_id wf })

/-- `PlannerAgent.get_workflow`. -/
def getWorkflow (st : PlannerAgent) (workflow_id : String) : Option Workflow :=
  alistGet st.workflows workflow_id

/-- `PlannerAgent.get_workflows`. -/
def getWorkflows (st : PlannerAgent) : List Workflow :=
  st.workflows.map Prod.snd

/-- The per-task field mutation performed by `update_task_status`. -/
def applyStatus (status : TaskStatus) (result : Option Params)
    (error : Option String) (now : Nat) (t : Task) : Task :=
  let t := { t with status := status }
  match status with
  | .inProgress => { t with started_at := some now }
  | .completed => { t with completed_at := some now, result := result }
  | .failed => { t with error := error, completed_at := some now }
  | _ => t

/-- `PlannerAgent.update_task_status`: the single sanctioned mutator of task
status.  Returns `false` and leaves the state unchanged when the workflow or
task is unknown. -/
def updateTaskStatus (st : PlannerAgent) (workflow_id task_id : String)
    (status : TaskStatus) (result : Option Params) (error : Option String)
    (now : Nat) : Bool × PlannerAgent :=
  match alistGet st.workflows workflow_id with
  | none => (false, st)
  | some wf =>
    match alistGet wf.tasks task_id with
    | none => (false, st)
    | some _ =>
      (true,
       { st with
         workflows := alistModify st.workflows workflow_id (fun wf =>
           { wf with
             tasks := alistModify wf.tasks task_id
               (applyStatus status result error now) }) })

/-- `PlannerAgent.get_next_tasks`. -/
def getNextTasks (st : PlannerAgent) (workflow_id : String) : List Task :=
  match alistGet st.workflows workflow_id with
  | none => []
  | some wf => wf.get_ready_tasks

/-- `PlannerAgent.get_workflow_progress`. -/
def getWorkflowProgress (st : PlannerAgent) (workflow_id : String) :
    Option Progress :=
  match alistGet st.workflows workflow_id with
  | none => none
  | some wf => some wf.get_progress

/-! ## Orchestrator (`AgentOrchestrator` in orchestrator.py) -/

/-- `WorkflowMode` execution modes. -/
inductive WorkflowMode where
  | sequential
  | parallel
  | hybrid
deriving DecidableEq, Repr

/-- `AgentExecutionConfig`: strategy selection and limits (the quality-score
float is modelled as a rational). -/
structure AgentExecutionConfig where
  mode : WorkflowMode := .sequential
  max_retries : Nat := 3
  timeout_seconds : Nat := 300
  enable_criticism : Bool := true
  enable_summarization : Bool := true
  auto_approve_quality_score : Rat := 4 / 5
  log_execution : Bool := true

/-- The slice of the critic's `ReviewResult` the orchestrator reads
(the critic itself is an external collaborator, spec §6). -/
structure ReviewResult where
  is_approved : Bool := true
  review_summary : String := ""

/-- The slice of the summarizer's `SummaryResult` the orchestrator stores. -/
structure SummaryResult where
  summary_text : String := ""

/-- The critic and summarizer collaborators, modelled as pure functions
(content, content type, task name) and (content) respectively; spec §6 treats
them as external advisory services. -/
structure Collaborators where
  critic : String → String → String → ReviewResult
  summarizer : String → SummaryResult

/-- `ExecutionResult` dataclass. -/
structure ExecutionResult where
  workflow_id : String
  success : Bool
  status : String
  started_at : Nat := 0
  completed_at : Option Nat := none
  duration_seconds : Int := 0
  tasks_completed : Nat := 0
  tasks_failed : Nat := 0
  tasks_total : Nat := 0
  results : List (String × Params) := []
  errors : List String := []
  reviews : List (String × ReviewResult) := []
  summaries : List (String × SummaryResult) := []

/-- An action handler: `(parameters) -> result map`, or an exception. -/
def Handler := Params → Except String Params

/-- `AgentOrchestrator` mutable state.  The handler registry is a field, as in
the source where `_register_action_handlers()` populates it at construction. -/
structure AgentOrchestrator where
  config : AgentExecutionConfig
  planner : PlannerAgent := {}
  executions : List (String × ExecutionResult) := []
  handlers : List (String × Handler)

/-- `_handle_query_docs`. -/
def handleQueryDocs : Handler := fun params =>
  .ok [("action", .s "query_docs"),
       ("output", .s ("Queried " ++ (alistGetD params "limit" (.i 10)).str ++ " documents")),
       ("documents_found", alistGetD params "limit" (.i 10))]

/-- `_handle_extract_key_points`. -/
def handleExtractKeyPoints : Handler := fun params =>
  .ok [("action", .s "extract_key_points"),
       ("output", .s "Extracted key points from content"),
       ("points_count", alistGetD params "max_points" (.i 10))]

/-- `_handle_synthesize`. -/
def handleSynthesize : Handler := fun params =>
  .ok [("action", .s "synthesize"),
       ("output", .s "Generated synthesis from context"),
       ("style", alistGetD params "style" (.s "professional"))]

/-- `_handle_analyze_patterns`. -/
def handleAnalyzePatterns : Handler := fun params =>
  .ok [("action", .s "analyze_patterns"),
       ("output", .s "Analyzed patterns in content"),
       ("method", alistGetD params "method" (.s "default"))]

/-- `_handle_format`. -/
def handleFormat : Handler := fun params =>
  .ok [("action", .s "format"),
       ("output", .s "Formatted content"),
       ("format", alistGetD params "format" (.s "text"))]

/-- `_handle_rerank`. -/
def handleRerank : Handler := fun params =>
  .ok [("action", .s "rerank"),
       ("output", .s "Reranked results"),
       ("method", alistGetD params "method" (.s "default"))]

/-- `_handle_plan`. -/
def handlePlan : Handler := fun params =>
  .ok [("action", .s "plan"),
       ("output", .s "Created plan"),
       ("elements", alistGetD params "elements" (.strs []))]

/-- `_handle_review`. -/
def handleReview : Handler := fun params =>
  .ok [("action", .s "review"),
       ("output", .s "Completed review"),
       ("check_quality", alistGetD params "check_quality" (.b false))]

/-- `_handle_analyze`. -/
def handleAnalyze : Handler := fun params =>
  .ok [("action", .s "analyze"),
       ("output", .s "Analysis complete"),
       ("goal", alistGetD params "goal" (.s ""))]

/-- `_handle_execute`. -/
def handleExecute : Handler := fun params =>
  .ok [("action", .s "execute"),
       ("output", .s "Execution complete"),
       ("goal", alistGetD params "goal" (.s ""))]

/-- `_handle_validate`. -/
def handleValidate : Handler := fun params =>
  .ok [("action", .s "validate"),
       ("output", .s "Validation complete"),
       ("goal", alistGetD params "goal" (.s "")),
       ("success", .b true)]

/-- `_handle_check_updates`. -/
def handleCheckUpdates : Handler := fun params =>
  .ok [("action", .s "check_updates"),
       ("output", .s "Checked for updates"),
       ("check_type", alistGetD params "check_type" (.s "default")),
       ("updates_found", .i 0)]

/-- `_handle_process_updates`. -/
def handleProcessUpdates : Handler := fun params =>
  .ok [("action", .s "process_updates"),
       ("output", .s "Processed updates"),
       ("merge_strategy", alistGetD params "merge_strategy" (.s "default"))]

/-- `_handle_verify`. -/
def handleVerify : Handler := fun params =>
  .ok [("action", .s "verify"),
       ("output", .s "Verification complete"),
       ("verify_type", alistGetD params "verify_type" (.s "default")),
       ("success", .b true)]

/-- `_default_handler` for unknown actions: echoes the parameters. -/
def defaultHandler : Handler := fun params =>
  .ok [("action", .s "unknown"),
       ("output", .s "Action executed"),
       ("parameters", .dict params)]

/-- `_register_action_handlers`. -/
def registerActionHandlers : List (String × Handler) :=
  [("query_docs", handleQueryDocs),
   ("extract_key_points", handleExtractKeyPoints),
   ("synthesize", handleSynthesize),
   ("analyze_patterns", handleAnalyzePatterns),
   ("format", handleFormat),
   ("rerank", handleRerank),
   ("plan", handlePlan),
   ("review", handleReview),
   ("analyze", handleAnalyze),
   ("execute", handleExecute),
   ("validate", handleValidate),
   ("check_updates", handleCheckUpdates),
   ("process_updates", handleProcessUpdates),
   ("verify", handleVerify)]

/-- A freshly constructed orchestrator (`AgentOrchestrator.__init__`). -/
def mkOrchestrator (config : AgentExecutionConfig) : AgentOrchestrator :=
  { config := config, planner := {}, executions := [],
    handlers := registerActionHandlers }

/-- The `"output"` field of a handler result, when it is a (non-empty tested
elsewhere) string.  Every handler in the registry produces a string output;
Python `len()` of a non-string output (which would raise) is not modelled. -/
def outputStr (tr : Params) : Option String :=
  match alistGet tr "output" with
  | some (.s v) => some v
  | _ => none

/-- `AgentOrchestrator._execute_task`: mark IN_PROGRESS, run the handler
(or the default for an unregistered action), mark COMPLETED and record the
result, optionally review and summarize the textual output; on a handler
exception append the error, mark the task FAILED, and return `false`. -/
def execTask (st : AgentOrchestrator) (collab : Collaborators) (now : Nat)
    (workflow_id : String) (task : Task) (res : ExecutionResult) :
    Bool × AgentOrchestrator × ExecutionResult :=
  let st := { st with
    planner := (updateTaskStatus st.planner workflow_id task.id .inProgress
      none none now).2 }
  let handler := (alistGet st.handlers task.action).getD defaultHandler
  match handler task.parameters with
  | .error e =>
    let msg := "Task " ++ task.id ++ " failed: " ++ e
    let res := { res with errors := res.errors ++ [msg] }
    let st := { st with
      planner := (updateTaskStatus st.planner workflow_id task.id .failed
        none (some msg) now).2 }
    (false, st, res)
  | .ok task_result =>
    let st := { st with
      planner := (updateTaskStatus st.planner workflow_id task.id .completed
        (some task_result) none now).2 }
    let res := { res with results := alistPut res.results task.id task_result }
    let out := outputStr task_result
    let res :=
      match out with
      | some o =>
        if st.config.enable_criticism && o != "" then
          { res with reviews :=
              alistPut res.reviews task.id (collab.critic o task.action task.name) }
        else res
      | none => res
    let res :=
      match out with
      | some o =>
        if st.config.enable_summarization && o != "" && o.length > 200 then
          { res with summaries :=
              alistPut res.summaries task.id (collab.summarizer o) }
        else res
      | none => res
    (true, st, res)

/-- One full dispatch pass of the strategy loop body: execute every
ready-and-not-yet-executed task of the current snapshot, recording each in
the executed set and bumping the completed/failed counters. -/
def dispatchPass (collab : Collaborators) (now : Nat) (workflow_id : String)
    (snapshot : List Task)
    (acc : AgentOrchestrator × ExecutionResult × List String) :
    AgentOrchestrator × ExecutionResult × List String :=
  snapshot.foldl
    (fun acc t =>
      let (st, res, executed) := acc
      let (succ, st, res) := execTask st collab now workflow_id t res
      let executed := if executed.contains t.id then executed else executed ++ [t.id]
      let res :=
        if succ then { res with tasks_completed := res.tasks_completed + 1 }
        else { res with tasks_failed := res.tasks_failed + 1 }
      (st, res, executed))
    acc

/-- The `while` loop of `_execute_sequential`.  The loop re-reads the
workflow through the planner registry each iteration (the Python `workflow`
argument aliases the stored object; an unstored workflow falls back to the
argument itself, matching the no-op `update_task_status` in that case).
Each productive iteration adds at least one new task ID to the executed set,
so `tasks.length + 1` units of fuel are never exhausted; the fuel-out branch
mirrors an ordinary loop exit. -/
def seqLoop (collab : Collaborators) (now : Nat) (wf0 : Workflow) :
    Nat → AgentOrchestrator → ExecutionResult → List String →
    Except String (AgentOrchestrator × ExecutionResult)
  | 0, st, res, _ => .ok (st, res)
  | fuel + 1, st, res, executed =>
    let curWf := (alistGet st.planner.workflows wf0.id).getD wf0
    if executed.length < curWf.tasks.length then
      let ready_not_executed :=
        curWf.get_ready_tasks.filter (fun t => !(executed.contains t.id))
      if ready_not_executed.isEmpty then
        if executed.isEmpty then .error "No ready tasks and nothing executed"
        else .ok (st, res)
      else
        let next := dispatchPass collab now wf0.id ready_not_executed (st, res, executed)
        seqLoop collab now wf0 fuel next.1 next.2.1 next.2.2
    else .ok (st, res)

/-- The `while` loop of `_execute_parallel` — textually identical to the
sequential loop in the source ("PARALLEL" does not yet imply concurrency). -/
def parLoop (collab : Collaborators) (now : Nat) (wf0 : Workflow) :
    Nat → AgentOrchestrator → ExecutionResult → List String →
    Except String (AgentOrchestrator × ExecutionResult)
  | 0, st, res, _ => .ok (st, res)
  | fuel + 1, st, res, executed =>
    let curWf := (alistGet st.planner.workflows wf0.id).getD wf0
    if executed.length < curWf.tasks.length then
      let ready_not_executed :=
        curWf.get_ready_tasks.filter (fun t => !(executed.contains t.id))
      if ready_not_executed.isEmpty then
        if executed.isEmpty then .error "No ready tasks and nothing executed"
        else .ok (st, res)
      else
        let next := dispatchPass collab now wf0.id ready_not_executed (st, res, executed)
        parLoop collab now wf0 fuel next.1 next.2.1 next.2.2
    else .ok (st, res)

/-- `AgentOrchestrator._execute_sequential`. -/
def executeSequential (st : AgentOrchestrator) (collab : Collaborators)
    (now : Nat) (wf : Workflow) (res : ExecutionResult) :
    Except String (AgentOrchestrator × ExecutionResult) :=
  seqLoop collab now wf
    (((alistGet st.planner.workflows wf.id).getD wf).tasks.length + 1) st res []

/-- `AgentOrchestrator._execute_parallel`. -/
def executeParallel (st : AgentOrchestrator) (collab : Collaborators)
    (now : Nat) (wf : Workflow) (res : ExecutionResult) :
    Except String (AgentOrchestrator × ExecutionResult) :=
  parLoop collab now wf
    (((alistGet st.planner.workflows wf.id).getD wf).tasks.length + 1) st res []

/-- `AgentOrchestrator._execute_hybrid`: delegates to the sequential
strategy. -/
def executeHybrid (st : AgentOrchestrator) (collab : Collaborators)
    (now : Nat) (wf : Workflow) (res : ExecutionResult) :
    Except String (AgentOrchestrator × ExecutionResult) :=
  executeSequential st collab now wf res

/-- Strategy dispatch on `config.mode` (the `if/elif/else` in
`_execute_workflow_tasks`). -/
def dispatchStrategy (st : AgentOrchestrator) (collab : Collaborators)
    (now : Nat) (wf : Workflow) (res : ExecutionResult) :
    Except String (AgentOrchestrator × ExecutionResult) :=
  match st.config.mode with
  | .sequential => executeSequential st collab now wf res
  | .parallel => executeParallel st collab now wf res
  | .hybrid => executeHybrid st collab now wf res

/-- `AgentOrchestrator._execute_workflow_tasks`.  `nowStart`/`nowEnd` are the
clock readings taken when the shell is created and in the finally block.
The only exception a strategy can raise is the scheduling-deadlock
`RuntimeError`, which fires before any task has been dispatched, so the
pre-strategy result shell and orchestrator state are exactly what the
Python `except` block observes. -/
def executeWorkflowTasks (st : AgentOrchestrator) (collab : Collaborators)
    (wf : Workflow) (nowStart nowEnd : Nat) :
    ExecutionResult × AgentOrchestrator :=
  let res : ExecutionResult :=
    { workflow_id := wf.id, success := false, status := "running",
      started_at := nowStart, tasks_total := wf.tasks.length }
  if wf.tasks.isEmpty then
    ({ res with
        status := "completed", success := true,
        completed_at := some nowEnd }, st)
  else
    match dispatchStrategy st collab nowStart wf res with
    | .ok (st, res) =>
      let res := { res with
        success := res.tasks_failed == 0,
        status := if res.tasks_failed == 0 then "completed"
                  else "completed_with_errors" }
      ({ res with
          completed_at := some nowEnd,
          duration_seconds := (nowEnd : Int) - (nowStart : Int) }, st)
    | .error e =>
      let res := { res with
        errors := res.errors ++ [e], status := "failed",
        success := false }
      ({ res with
          completed_at := some nowEnd,
          duration_seconds := (nowEnd : Int) - (nowStart : Int) }, st)

/-- `AgentOrchestrator.execute_workflow`: plan, execute, record the
execution. -/
def executeWorkflow (st : AgentOrchestrator) (collab : Collaborators)
    (goal description : String) (context : Option Params)
    (nowPlan nowStart nowEnd : Nat) : ExecutionResult × AgentOrchestrator :=
  let (wf, planner) := planWorkflow st.planner nowPlan goal description context
  let st := { st with planner := planner }
  let (res, st) := executeWorkflowTasks st collab wf nowStart nowEnd
  (res, { st with executions := alistPut st.executions res.workflow_id res })

/-- `AgentOrchestrator.get_execution`. -/
def getExecution (st : AgentOrchestrator) (workflow_id : String) :
    Option ExecutionResult :=
  alistGet st.executions workflow_id

/-- The record returned by `get_workflow_status`. -/
structure WorkflowStatusInfo where
  workflow_id : String
  goal : String
  status : String
  progress : Progress
  tasks_completed : Nat
  tasks_failed : Nat
  duration_seconds : Int
  success : Bool

/-- `AgentOrchestrator.get_workflow_status`: `None` when either the execution
or the workflow is unknown. -/
def getWorkflowStatus (st : AgentOrchestrator) (workflow_id : String) :
    Option WorkflowStatusInfo :=
  match alistGet st.executions workflow_id with
  | none => none
  | some execution =>
    match getWorkflow st.planner workflow_id with
    | none => none
    | some wf =>
      some { workflow_id := workflow_id, goal := wf.goal,
             status := execution.status, progress := wf.get_progress,
             tasks_completed := execution.tasks_completed,
             tasks_failed := execution.tasks_failed,
             duration_seconds := execution.duration_seconds,
             success := execution.success }

/-- `AgentOrchestrator.cancel_workflow`: force every PENDING/READY task to
BLOCKED; `false` when the workflow is unknown. -/
def cancelWorkflow (st : AgentOrchestrator) (workflow_id : String) :
    Bool × AgentOrchestrator :=
  match alistGet st.planner.workflows workflow_id with
  | none => (false, st)
  | some _ =>
    (true,
     { st with planner := { st.planner with
         workflows := alistModify st.planner.workflows workflow_id (fun wf =>
           { wf with tasks := wf.tasks.map (fun p =>
               (p.1,
                if p.2.status == .pending || p.2.status == .ready then
                  { p.2 with status := .blocked }
                else p.2)) }) } })

/-- `AgentOrchestrator.retry_failed_task`: reset a FAILED task to PENDING;
`false` for any other status or unknown IDs. -/
def retryFailedTask (st : AgentOrchestrator) (workflow_id task_id : String) :
    Bool × AgentOrchestrator :=
  match alistGet st.planner.workflows workflow_id with
  | none => (false, st)
  | some wf =>
    match alistGet wf.tasks task_id with
    | none => (false, st)
    | some task =>
      if task.status != .failed then (false, st)
      else
        (true,
         { st with planner := { st.planner with
             workflows := alistModify st.planner.workflows workflow_id (fun wf =>
               { wf with tasks := alistModify wf.tasks task_id (fun t =>
                   { t with status := .pending }) }) } })

/-! ## Shared definitions for the theorems -/

/-- Collaborators whose advisory output carries no information; used where a
claim does not depend on the critic or summarizer. -/
def trivialCollab : Collaborators :=
  { critic := fun _ _ _ => {}, summarizer := fun _ => {} }

/-- The §3 data-model invariant: every dependency ID refers to a task present
in the same workflow's task map.  Workflows produced by the planner satisfy
it by construction; the Python code indexes dependency IDs unchecked and
would raise `KeyError` otherwise. -/
def DepsClosed (wf : Workflow) : Prop :=
  ∀ p ∈ wf.tasks, ∀ d ∈ p.2.dependencies, (alistGet wf.tasks d).isSome

/-! ## C1 — planning the goal "Create a daily briefing" -/

/-- C1 counterexample: the claim says the goal "Create a daily briefing"
produces exactly 4 tasks; the goal also contains the keyword "create", so the
generation family matches as well and the planner produces 7 tasks. -/
theorem c1_counterexample :
    ¬ ((planWorkflow {} 0 "Create a daily briefing" "" none).1.tasks.length = 4) := by
  decide

/-- C1 (amended): for the goal "Create a daily briefing" the planner matches
both the briefing family ("briefing") and the generation family ("create")
and produces exactly 7 tasks with actions `query_docs`, `extract_key_points`,
`synthesize`, `format`, `plan`, `synthesize`, `review`; the `format` task
depends on the `query_docs` task, each `synthesize` task depends on both the
`extract_key_points` task and the `plan` task, the `extract_key_points`,
`query_docs`, `plan` and `review` tasks have no dependencies (in particular
`extract_key_points` does not depend on `query_docs`), and the estimated
total duration is 10+15+20+10+10+20+15 = 100. -/
theorem c1_amended :
    (planWorkflow {} 0 "Create a daily briefing" "" none).1.tasks.length = 7 ∧
    ((planWorkflow {} 0 "Create a daily briefing" "" none).1.tasks.map
        (fun p => p.2.action)) =
      ["query_docs", "extract_key_points", "synthesize", "format",
       "plan", "synthesize", "review"] ∧
    ((planWorkflow {} 0 "Create a daily briefing" "" none).1.tasks.map
        (fun p => p.2.dependencies)) =
      [[], [], ["task_2", "task_5"], ["task_1"], [], ["task_2", "task_5"], []] ∧
    (planWorkflow {} 0 "Create a daily briefing" "" none).1.estimated_total_duration
      = 100 ∧
    (planWorkflow {} 0 "Create a daily briefing" "" none).1.status = "ready" := by
  refine ⟨by decide, rfl, rfl, by decide, rfl⟩

/-! ## C6 — the three execution strategies are extensionally equal -/

/-- The sequential and parallel loops are the same function (their source
bodies are textually identical). -/
theorem seqLoop_eq_parLoop : @seqLoop = @parLoop := by
  funext collab now wf0 fuel st res executed
  induction fuel generalizing st res executed with
  | zero => rfl
  | succ fuel ih =>
    simp only [seqLoop, parLoop]
    split
    · split
      · rfl
      · exact ih _ _ _
    · rfl

/-- C6: the three execution strategies are extensionally equal —
`_execute_sequential` and `_execute_parallel` have identical bodies, and
`_execute_hybrid` delegates to the sequential strategy, so all three perform
the same sequence of task dispatches and produce the same final orchestrator
state and ExecutionResult on every input. -/
theorem c6_strategies_equal :
    @executeSequential = @executeParallel ∧
    @executeHybrid = @executeSequential := by
  constructor
  · funext st collab now wf res
    simp only [executeSequential, executeParallel, seqLoop_eq_parLoop]
  · funext st collab now wf res
    rfl

/-! ## Association-list lemmas -/

theorem alistGet_modify_self {α : Type} (l : List (String × α)) (k : String) (f : α → α) :
    alistGet (alistModify l k f) k = (alistGet l k).map f := by
  induction l with
  | nil => rfl
  | cons p l ih =>
    by_cases h : p.1 = k
    · simp [alistModify, alistGet, h]
    · simp [alistModify, alistGet, h, ih]

theorem alistGet_modify_ne {α : Type} (l : List (String × α)) (k k' : String) (f : α → α)
    (h : k' ≠ k) :
    alistGet (alistModify l k f) k' = alistGet l k' := by
  induction l with
  | nil => rfl
  | cons p l ih =>
    have hkk : ¬ k = k' := fun hc => h hc.symm
    by_cases hp : p.1 = k
    · have hne : ¬ p.1 = k' := fun hc => h (by rw [← hc, hp])
      simp [alistModify, alistGet, hp, hne, hkk, ih]
    · by_cases hq : p.1 = k'
      · simp [alistModify, alistGet, hp, hq, h]
      · simp [alistModify, alistGet, hp, hq, ih]

theorem alistGet_append_not_mem {α : Type} (l : List (String × α)) (k : String) (v : α)
    (h : alistGet l k = none) (k' : String) :
    alistGet (l ++ [(k, v)]) k' = if k = k' then some v else alistGet l k' := by
  induction l with
  | nil => simp [alistGet]
  | cons p l ih =>
    by_cases hp : p.1 = k
    · simp [alistGet, hp] at h
    · simp only [alistGet, hp, if_false, if_neg hp] at h
      by_cases hq : p.1 = k'
      · have : ¬ k = k' := fun hc => hp (by rw [hq, hc])
        simp [alistGet, hq, this]
      · simp [alistGet, hq, ih h]

theorem alistGet_put_self {α : Type} (l : List (String × α)) (k : String) (v : α) :
    alistGet (alistPut l k v) k = some v := by
  unfold alistPut
  by_cases h : (alistGet l k).isSome
  · rw [if_pos h, alistGet_modify_self]
    rcases Option.isSome_iff_exists.mp h with ⟨w, hw⟩
    rw [hw]; rfl
  · rw [if_neg h]
    have hn : alistGet l k = none := Option.not_isSome_iff_eq_none.mp h
    rw [alistGet_append_not_mem l k v hn k, if_pos rfl]

theorem alistGet_put_ne {α : Type} (l : List (String × α)) (k k' : String) (v : α)
    (h : k' ≠ k) :
    alistGet (alistPut l k v) k' = alistGet l k' := by
  unfold alistPut
  by_cases hf : (alistGet l k).isSome
  · rw [if_pos hf, alistGet_modify_ne _ _ _ _ h]
  · rw [if_neg hf]
    have hn : alistGet l k = none := Option.not_isSome_iff_eq_none.mp hf
    rw [alistGet_append_not_mem l k v hn k', if_neg (fun hc => h hc.symm)]

theorem alistModify_mem {α : Type} (l : List (String × α)) (k : String) (f : α → α)
    (p : String × α) (hp : p ∈ alistModify l k f) :
    p ∈ l ∨ ∃ q ∈ l, p = (q.1, f q.2) := by
  induction l with
  | nil => simp [alistModify] at hp
  | cons q l ih =>
    simp only [alistModify, List.mem_cons] at hp
    rcases hp with hp | hp
    · by_cases hq : q.1 = k
      · right
        exact ⟨q, List.mem_cons_self _ _, by rw [hp, if_pos hq]⟩
      · left
        rw [hp, if_neg hq]
        exact List.mem_cons_self _ _
    · rcases ih hp with hin | ⟨r, hr, hval⟩
      · exact Or.inl (List.mem_cons_of_mem _ hin)
      · exact Or.inr ⟨r, List.mem_cons_of_mem _ hr, hval⟩

theorem alistPut_mem {α : Type} (l : List (String × α)) (k : String) (v : α)
    (p : String × α) (hp : p ∈ alistPut l k v) :
    p ∈ l ∨ p.2 = v := by
  unfold alistPut at hp
  by_cases hf : (alistGet l k).isSome
  · rw [if_pos hf] at hp
    rcases alistModify_mem _ _ _ _ hp with hin | ⟨q, _, hval⟩
    · exact Or.inl hin
    · right; rw [hval]
  · rw [if_neg hf] at hp
    rcases List.mem_append.mp hp with hin | hone
    · exact Or.inl hin
    · right
      rw [List.mem_singleton.mp hone]

/-! ## C7 / C9 — frame conditions of cancel and retry -/

/-- Every field of a task except `status` is equal. -/
def SameTaskCore (t t' : Task) : Prop :=
  t'.id = t.id ∧ t'.name = t.name ∧ t'.description = t.description ∧
  t'.objective = t.objective ∧ t'.action = t.action ∧
  t'.parameters = t.parameters ∧ t'.priority = t.priority ∧
  t'.dependencies = t.dependencies ∧
  t'.estimated_duration_seconds = t.estimated_duration_seconds ∧
  t'.created_at = t.created_at ∧ t'.started_at = t.started_at ∧
  t'.completed_at = t.completed_at ∧ t'.result = t.result ∧ t'.error = t.error

/-- Every field of a workflow except `tasks` is equal. -/
def SameWfMeta (wf wf' : Workflow) : Prop :=
  wf'.id = wf.id ∧ wf'.goal = wf.goal ∧ wf'.description = wf.description ∧
  wf'.task_order = wf.task_order ∧ wf'.status = wf.status ∧
  wf'.created_at = wf.created_at ∧ wf'.started_at = wf.started_at ∧
  wf'.completed_at = wf.completed_at ∧
  wf'.estimated_total_duration = wf.estimated_total_duration ∧
  wf'.actual_duration = wf.actual_duration ∧ wf'.metadata = wf.metadata

/-- C7: `cancel_workflow` on a known workflow returns `true` and transitions
exactly the PENDING/READY tasks to BLOCKED, leaving every other task status,
every other task field, the rest of the workflow, all other workflows, and
the rest of the orchestrator state unchanged; on an unknown workflow ID it
returns `false` and changes nothing. -/
theorem c7_cancel_workflow (st : AgentOrchestrator) (wid : String) :
    (alistGet st.planner.workflows wid = none →
      cancelWorkflow st wid = (false, st)) ∧
    (∀ wf, alistGet st.planner.workflows wid = some wf →
      (cancelWorkflow st wid).1 = true ∧
      (∃ wf', alistGet (cancelWorkflow st wid).2.planner.workflows wid = some wf' ∧
        SameWfMeta wf wf' ∧
        List.Forall₂ (fun p q => p.1 = q.1 ∧ SameTaskCore p.2 q.2 ∧
          q.2.status = (if p.2.status = .pending ∨ p.2.status = .ready
                        then .blocked else p.2.status))
          wf.tasks wf'.tasks) ∧
      (∀ k, k ≠ wid →
        alistGet (cancelWorkflow st wid).2.planner.workflows k =
          alistGet st.planner.workflows k) ∧
      (cancelWorkflow st wid).2.executions = st.executions ∧
      (cancelWorkflow st wid).2.config = st.config ∧
      (cancelWorkflow st wid).2.handlers = st.handlers ∧
      (cancelWorkflow st wid).2.planner.task_counter = st.planner.task_counter) := by
  constructor
  · intro h
    unfold cancelWorkflow
    rw [h]
  · intro wf h
    unfold cancelWorkflow
    rw [h]
    refine ⟨rfl, ?_, ?_, rfl, rfl, rfl, rfl⟩
    · refine ⟨_, by rw [alistGet_modify_self, h]; rfl, ?_, ?_⟩
      · exact ⟨rfl, rfl, rfl, rfl, rfl, rfl, rfl, rfl, rfl, rfl, rfl⟩
      · rw [List.forall₂_map_right_iff]
        rw [List.forall₂_same]
        intro p _
        refine ⟨rfl, ?_, ?_⟩
        · cases hs : p.2.status <;>
            simp [SameTaskCore, hs]
        · cases hs : p.2.status <;> simp [hs]
    · intro k hk
      exact alistGet_modify_ne _ _ _ _ hk

/-- C9: `retry_failed_task` on a FAILED task flips only that task's status to
PENDING and returns `true`, retaining the task's `error`, `completed_at`,
`started_at` and `result` from the failed attempt and leaving every other
task, workflow field, and orchestrator field unchanged; for a task in any
other status, or unknown workflow/task IDs, it returns `false` and changes
nothing. -/
theorem c9_retry_failed_task (st : AgentOrchestrator) (wid tid : String) :
    (alistGet st.planner.workflows wid = none →
      retryFailedTask st wid tid = (false, st)) ∧
    (∀ wf, alistGet st.planner.workflows wid = some wf →
      (alistGet wf.tasks tid = none →
        retryFailedTask st wid tid = (false, st)) ∧
      (∀ t, alistGet wf.tasks tid = some t →
        (t.status ≠ .failed → retryFailedTask st wid tid = (false, st)) ∧
        (t.status = .failed →
          (retryFailedTask st wid tid).1 = true ∧
          (∃ wf',
            alistGet (retryFailedTask st wid tid).2.planner.workflows wid = some wf' ∧
            SameWfMeta wf wf' ∧
            (∃ t', alistGet wf'.tasks tid = some t' ∧
              t'.status = .pending ∧ SameTaskCore t t') ∧
            (∀ k, k ≠ tid → alistGet wf'.tasks k = alistGet wf.tasks k)) ∧
          (∀ k, k ≠ wid →
            alistGet (retryFailedTask st wid tid).2.planner.workflows k =
              alistGet st.planner.workflows k) ∧
          (retryFailedTask st wid tid).2.executions = st.executions ∧
          (retryFailedTask st wid tid).2.config = st.config ∧
          (retryFailedTask st wid tid).2.handlers = st.handlers ∧
          (retryFailedTask st wid tid).2.planner.task_counter =
            st.planner.task_counter))) := by
  constructor
  · intro h
    simp only [retryFailedTask, h]
  · intro wf h
    constructor
    · intro ht
      simp only [retryFailedTask, h, ht]
    · intro t ht
      constructor
      · intro hs
        have hb : (t.status != TaskStatus.failed) = true := by
          cases hstat : t.status <;> simp_all
        simp only [retryFailedTask, h, ht, hb, if_true]
      · intro hs
        have hcond : (t.status != TaskStatus.failed) = false := by
          rw [hs]; simp
        simp only [retryFailedTask, h, ht, hcond, Bool.false_eq_true, if_false]
        refine ⟨by trivial, ?_, ?_, by trivial, by trivial, by trivial, by trivial⟩
        · refine ⟨_, by rw [alistGet_modify_self, h]; rfl, ?_, ?_, ?_⟩
          · exact ⟨rfl, rfl, rfl, rfl, rfl, rfl, rfl, rfl, rfl, rfl, rfl⟩
          · refine ⟨_, by rw [alistGet_modify_self, ht]; rfl, rfl, ?_⟩
            exact ⟨rfl, rfl, rfl, rfl, rfl, rfl, rfl, rfl, rfl, rfl, rfl, rfl, rfl, rfl⟩
          · intro k hk
            exact alistGet_modify_ne _ _ _ _ hk
        · intro k hk
          exact alistGet_modify_ne _ _ _ _ hk

/-! ## C8 — unknown IDs yield sentinels, never exceptions -/

/-- C8: every query and mutation entry point, given an unknown workflow /
task / execution ID, returns its sentinel instead of raising: `get_workflow`,
`get_workflow_progress`, `get_execution` and `get_workflow_status` return
`None`; `get_next_tasks` returns `[]`; `update_task_status`,
`cancel_workflow` and `retry_failed_task` return `False` and leave the state
unchanged.  (All operations are total functions of the embedding — no
exception path exists for a missing ID.) -/
theorem c8_unknown_id_sentinels (st : AgentOrchestrator) (wid : String) :
    (alistGet st.planner.workflows wid = none →
      getWorkflow st.planner wid = none ∧
      getWorkflowProgress st.planner wid = none ∧
      getNextTasks st.planner wid = [] ∧
      (∀ tid status result error now,
        updateTaskStatus st.planner wid tid status result error now =
          (false, st.planner)) ∧
      cancelWorkflow st wid = (false, st) ∧
      (∀ tid, retryFailedTask st wid tid = (false, st))) ∧
    (∀ wf, alistGet st.planner.workflows wid = some wf →
      (∀ tid, alistGet wf.tasks tid = none →
        (∀ status result error now,
          updateTaskStatus st.planner wid tid status result error now =
            (false, st.planner)) ∧
        retryFailedTask st wid tid = (false, st))) ∧
    (alistGet st.executions wid = none →
      getExecution st wid = none ∧
      getWorkflowStatus st wid = none) := by
  refine ⟨?_, ?_, ?_⟩
  · intro h
    refine ⟨?_, ?_, ?_, ?_, ?_, ?_⟩
    · simp only [getWorkflow, h]
    · simp only [getWorkflowProgress, h]
    · simp only [getNextTasks, h]
    · intro tid status result error now
      simp only [updateTaskStatus, h]
    · simp only [cancelWorkflow, h]
    · intro tid
      simp only [retryFailedTask, h]
  · intro wf h tid ht
    constructor
    · intro status result error now
      simp only [updateTaskStatus, h, ht]
    · simp only [retryFailedTask, h, ht]
  · intro h
    constructor
    · simp only [getExecution, h]
    · simp only [getWorkflowStatus, h]

/-! ## C5 — a failed task never aborts the run and blocks its dependents -/

/-- Scenario C task A: its action's handler raises. -/
def c5TaskA : Task := { id := "A", name := "A", action := "boom" }

/-- Scenario C task B: depends on A. -/
def c5TaskB : Task := { id := "B", name := "B", action := "okact", dependencies := ["A"] }

/-- Scenario C workflow: two tasks, B depends on A. -/
def c5Workflow : Workflow :=
  { id := "w1", tasks := [("A", c5TaskA), ("B", c5TaskB)], status := "ready" }

/-- A handler registry in which A's action raises and B's action succeeds. -/
def c5Handlers : List (String × Handler) :=
  [("boom", fun _ => .error "kaput"),
   ("okact", fun _ => .ok [("output", .s "fine")])]

/-- Scenario C orchestrator state, with the workflow stored in the planner. -/
def c5State (m : WorkflowMode) : AgentOrchestrator :=
  { config := { mode := m },
    planner := { workflows := [("w1", c5Workflow)] },
    handlers := c5Handlers }

/-- C5: on a two-task workflow where B depends on A and A's handler raises,
`_execute_workflow_tasks` (under any execution mode) returns success `false`
with `tasks_failed = 1` and `tasks_completed = 0`; task A ends FAILED, task B
remains PENDING and is never dispatched (its `started_at` is never stamped
and the per-task result map stays empty); the failure is contained — the run
finishes with status "completed_with_errors" rather than raising. -/
theorem c5_failure_isolation (m : WorkflowMode) :
    (executeWorkflowTasks (c5State m) trivialCollab c5Workflow 1 2).1.success = false ∧
    (executeWorkflowTasks (c5State m) trivialCollab c5Workflow 1 2).1.tasks_failed = 1 ∧
    (executeWorkflowTasks (c5State m) trivialCollab c5Workflow 1 2).1.tasks_completed = 0 ∧
    (executeWorkflowTasks (c5State m) trivialCollab c5Workflow 1 2).1.status =
      "completed_with_errors" ∧
    ((executeWorkflowTasks (c5State m) trivialCollab c5Workflow 1 2).1.results.map
      Prod.fst) = [] ∧
    ((alistGet (executeWorkflowTasks (c5State m) trivialCollab c5Workflow 1 2).2.planner.workflows
        "w1").map (fun wf =>
          wf.tasks.map (fun p => (p.1, p.2.status, p.2.started_at)))) =
      some [("A", .failed, some 1), ("B", .pending, none)] := by
  cases m <;> exact ⟨rfl, rfl, rfl, rfl, rfl, rfl⟩

/-! ## C4 — the `_execute_workflow_tasks` result contract -/

/-- C4: `_execute_workflow_tasks` on a zero-task workflow short-circuits to a
successful "completed" result; on a non-empty workflow whose strategy returns
normally it reports `success = (tasks_failed == 0)` with status "completed"
or "completed_with_errors"; if the strategy raises, the result has status
"failed", success `false` and the exception's message appended to `errors`;
in every case `completed_at` is stamped (and `duration_seconds` holds the
elapsed time whenever the finally-equivalent block runs; on the zero-task
early return it keeps its initial value 0).  The `DepsClosed` hypothesis
scopes the theorem to workflows satisfying the §3 invariant, under which the
embedding's readiness semantics coincides with the source's unchecked
dictionary indexing. -/
theorem c4_execute_workflow_tasks (st : AgentOrchestrator) (collab : Collaborators)
    (wf : Workflow) (n1 n2 : Nat)
    (hdeps : DepsClosed ((alistGet st.planner.workflows wf.id).getD wf)) :
    (wf.tasks = [] →
      executeWorkflowTasks st collab wf n1 n2 =
        ({ workflow_id := wf.id, success := true, status := "completed",
           started_at := n1, completed_at := some n2,
           tasks_total := wf.tasks.length }, st)) ∧
    (∀ st' res', wf.tasks ≠ [] →
      dispatchStrategy st collab n1 wf
        { workflow_id := wf.id, success := false, status := "running",
          started_at := n1, tasks_total := wf.tasks.length } = .ok (st', res') →
      (executeWorkflowTasks st collab wf n1 n2).1.success =
        (res'.tasks_failed == 0) ∧
      (executeWorkflowTasks st collab wf n1 n2).1.status =
        (if res'.tasks_failed == 0 then "completed" else "completed_with_errors") ∧
      (executeWorkflowTasks st collab wf n1 n2).1.completed_at = some n2 ∧
      (executeWorkflowTasks st collab wf n1 n2).1.duration_seconds =
        (n2 : Int) - (n1 : Int) ∧
      (executeWorkflowTasks st collab wf n1 n2).1.tasks_failed = res'.tasks_failed ∧
      (executeWorkflowTasks st collab wf n1 n2).1.tasks_completed =
        res'.tasks_completed ∧
      (executeWorkflowTasks st collab wf n1 n2).2 = st') ∧
    (∀ e, wf.tasks ≠ [] →
      dispatchStrategy st collab n1 wf
        { workflow_id := wf.id, success := false, status := "running",
          started_at := n1, tasks_total := wf.tasks.length } = .error e →
      (executeWorkflowTasks st collab wf n1 n2).1.status = "failed" ∧
      (executeWorkflowTasks st collab wf n1 n2).1.success = false ∧
      (executeWorkflowTasks st collab wf n1 n2).1.errors = [e] ∧
      (executeWorkflowTasks st collab wf n1 n2).1.completed_at = some n2 ∧
      (executeWorkflowTasks st collab wf n1 n2).1.duration_seconds =
        (n2 : Int) - (n1 : Int) ∧
      (executeWorkflowTasks st collab wf n1 n2).2 = st) := by
  refine ⟨?_, ?_, ?_⟩
  · intro h
    simp only [executeWorkflowTasks, h, List.isEmpty_nil, if_true]
  · intro st' res' h hdisp
    have hne : wf.tasks.isEmpty = false := by
      cases hwf : wf.tasks with
      | nil => exact absurd hwf h
      | cons a l => rfl
    simp only [executeWorkflowTasks, hne, Bool.false_eq_true, if_false, hdisp]
    exact ⟨by trivial, by trivial, by trivial, by trivial, by trivial, by trivial,
      by trivial⟩
  · intro e h hdisp
    have hne : wf.tasks.isEmpty = false := by
      cases hwf : wf.tasks with
      | nil => exact absurd hwf h
      | cons a l => rfl
    simp only [executeWorkflowTasks, hne, Bool.false_eq_true, if_false, hdisp]
    exact ⟨by trivial, by trivial, by trivial, by trivial, by trivial, by trivial⟩

/-! ## C3 — characterization of `get_ready_tasks` -/

theorem sortByPriorityRank_perm (l : List Task) : (sortByPriorityRank l).Perm l := by
  induction l with
  | nil => rfl
  | cons a l ih =>
    cases ha : a.priority
    · -- low: rank 3, last bucket
      have h0 : (priorityRank a.priority == 0) = false := by rw [ha]; rfl
      have h1 : (priorityRank a.priority == 1) = false := by rw [ha]; rfl
      have h2 : (priorityRank a.priority == 2) = false := by rw [ha]; rfl
      have h3 : (priorityRank a.priority == 3) = true := by rw [ha]; rfl
      unfold sortByPriorityRank
      simp only [List.filter_cons, h0, h1, h2, h3, Bool.false_eq_true, if_false, if_true]
      exact List.perm_middle.trans (List.Perm.cons a ih)
    · -- medium: rank 2
      have h0 : (priorityRank a.priority == 0) = false := by rw [ha]; rfl
      have h1 : (priorityRank a.priority == 1) = false := by rw [ha]; rfl
      have h2 : (priorityRank a.priority == 2) = true := by rw [ha]; rfl
      have h3 : (priorityRank a.priority == 3) = false := by rw [ha]; rfl
      unfold sortByPriorityRank
      simp only [List.filter_cons, h0, h1, h2, h3, Bool.false_eq_true, if_false, if_true]
      refine (List.perm_middle.append_right _).trans ?_
      simp only [List.cons_append]
      exact List.Perm.cons a ih
    · -- high: rank 1
      have h0 : (priorityRank a.priority == 0) = false := by rw [ha]; rfl
      have h1 : (priorityRank a.priority == 1) = true := by rw [ha]; rfl
      have h2 : (priorityRank a.priority == 2) = false := by rw [ha]; rfl
      have h3 : (priorityRank a.priority == 3) = false := by rw [ha]; rfl
      unfold sortByPriorityRank
      simp only [List.filter_cons, h0, h1, h2, h3, Bool.false_eq_true, if_false, if_true]
      refine ((List.perm_middle.append_right _).append_right _).trans ?_
      simp only [List.cons_append]
      exact List.Perm.cons a ih
    · -- critical: rank 0, first bucket
      have h0 : (priorityRank a.priority == 0) = true := by rw [ha]; rfl
      have h1 : (priorityRank a.priority == 1) = false := by rw [ha]; rfl
      have h2 : (priorityRank a.priority == 2) = false := by rw [ha]; rfl
      have h3 : (priorityRank a.priority == 3) = false := by rw [ha]; rfl
      unfold sortByPriorityRank
      simp only [List.filter_cons, h0, h1, h2, h3, Bool.false_eq_true, if_false, if_true,
        List.cons_append]
      exact List.Perm.cons a ih

theorem mem_filter_rank {l : List Task} {k : Nat} {t : Task}
    (h : t ∈ l.filter (fun t => priorityRank t.priority == k)) :
    priorityRank t.priority = k := by
  have := (List.mem_filter.mp h).2
  simpa using this

theorem bucket_pairwise (l : List Task) (k : Nat) :
    (l.filter (fun t => priorityRank t.priority == k)).Pairwise
      (fun a b => priorityRank a.priority ≤ priorityRank b.priority) :=
  List.pairwise_of_forall_mem_list (fun a ha b hb => by
    rw [mem_filter_rank ha, mem_filter_rank hb])

theorem sortByPriorityRank_sorted (l : List Task) :
    (sortByPriorityRank l).Pairwise
      (fun a b => priorityRank a.priority ≤ priorityRank b.priority) := by
  unfold sortByPriorityRank
  rw [List.pairwise_append]
  refine ⟨?_, bucket_pairwise l 3, ?_⟩
  · rw [List.pairwise_append]
    refine ⟨?_, bucket_pairwise l 2, ?_⟩
    · rw [List.pairwise_append]
      refine ⟨bucket_pairwise l 0, bucket_pairwise l 1, ?_⟩
      · intro a ha b hb
        rw [mem_filter_rank ha, mem_filter_rank hb]
        norm_num
    · intro a ha b hb
      rw [mem_filter_rank hb]
      rcases List.mem_append.mp ha with ha | ha
      · rw [mem_filter_rank ha]; norm_num
      · rw [mem_filter_rank ha]; norm_num
  · intro a ha b hb
    rw [mem_filter_rank hb]
    rcases List.mem_append.mp ha with ha | ha
    · rcases List.mem_append.mp ha with ha | ha
      · rw [mem_filter_rank ha]; norm_num
      · rw [mem_filter_rank ha]; norm_num
    · rw [mem_filter_rank ha]; norm_num

theorem filter_bucket (l : List Task) (p : TaskPriority) (k : Nat) :
    (l.filter (fun t => priorityRank t.priority == k)).filter
        (fun t => t.priority == p) =
      if priorityRank p = k then l.filter (fun t => t.priority == p) else [] := by
  induction l with
  | nil => by_cases h : priorityRank p = k <;> simp [h]
  | cons a l ih =>
    by_cases ha : a.priority = p
    · by_cases hk : priorityRank p = k
      · have hak : (priorityRank a.priority == k) = true := by
          simp [ha, hk]
        simp [List.filter_cons, hak, ha, hk, ih]
      · have hak : (priorityRank a.priority == k) = false := by
          simp [ha, hk]
        simp [List.filter_cons, hak, ha, hk, ih]
    · by_cases hak : priorityRank a.priority = k
      · simp [List.filter_cons, hak, ha, ih]
      · simp [List.filter_cons, hak, ha, ih]

theorem sortByPriorityRank_stable (l : List Task) (p : TaskPriority) :
    (sortByPriorityRank l).filter (fun t => t.priority == p) =
      l.filter (fun t => t.priority == p) := by
  unfold sortByPriorityRank
  simp only [List.filter_append, filter_bucket]
  cases p <;> simp [priorityRank]

theorem depsMet_iff (tasks : List (String × Task)) (t : Task) :
    depsMet tasks t = true ↔
      ∀ d ∈ t.dependencies, ∃ u, alistGet tasks d = some u ∧
        u.status = .completed := by
  unfold depsMet
  rw [List.all_eq_true]
  constructor
  · intro h d hd
    have := h d hd
    cases hg : alistGet tasks d with
    | none => rw [hg] at this; simp at this
    | some u =>
      rw [hg] at this
      simp only [beq_iff_eq] at this
      exact ⟨u, rfl, this⟩
  · intro h d hd
    rcases h d hd with ⟨u, hu, hs⟩
    rw [hu]
    simp [hs]

/-- C3: for a workflow whose dependency lists only mention task IDs present
in its task map (the §3 invariant, under which the source's unchecked
indexing cannot raise), `get_ready_tasks` returns exactly the tasks whose
status is PENDING or READY and all of whose dependency tasks are COMPLETED
(never a task with a non-COMPLETED dependency); the result is the
priority-stable sort of those tasks: priorities ordered
CRITICAL < HIGH < MEDIUM < LOW, ties kept in task-map encounter order. -/
theorem c3_get_ready_tasks (wf : Workflow) (hclosed : DepsClosed wf) :
    ((wf.get_ready_tasks).Perm
      ((wf.tasks.map Prod.snd).filter (fun t =>
        (t.status == .ready || t.status == .pending) && depsMet wf.tasks t))) ∧
    (∀ t, t ∈ wf.get_ready_tasks ↔
      (t ∈ wf.tasks.map Prod.snd ∧ (t.status = .pending ∨ t.status = .ready) ∧
        ∀ d ∈ t.dependencies, ∃ u, alistGet wf.tasks d = some u ∧
          u.status = .completed)) ∧
    (∀ t ∈ wf.get_ready_tasks, ∀ d ∈ t.dependencies, ∀ u,
      alistGet wf.tasks d = some u → u.status = .completed) ∧
    ((wf.get_ready_tasks).Pairwise
      (fun a b => priorityRank a.priority ≤ priorityRank b.priority)) ∧
    (∀ p : TaskPriority,
      (wf.get_ready_tasks).filter (fun t => t.priority == p) =
        ((wf.tasks.map Prod.snd).filter (fun t =>
          (t.status == .ready || t.status == .pending) &&
            depsMet wf.tasks t)).filter (fun t => t.priority == p)) := by
  have hperm : (wf.get_ready_tasks).Perm
      ((wf.tasks.map Prod.snd).filter (fun t =>
        (t.status == .ready || t.status == .pending) && depsMet wf.tasks t)) :=
    sortByPriorityRank_perm _
  refine ⟨hperm, ?_, ?_, sortByPriorityRank_sorted _, fun p => sortByPriorityRank_stable _ p⟩
  · intro t
    rw [hperm.mem_iff, List.mem_filter]
    constructor
    · rintro ⟨hmem, hpred⟩
      rw [Bool.and_eq_true] at hpred
      refine ⟨hmem, ?_, (depsMet_iff _ _).mp hpred.2⟩
      rcases Bool.or_eq_true _ _ |>.mp hpred.1 with h | h
      · exact Or.inr (by simpa using h)
      · exact Or.inl (by simpa using h)
    · rintro ⟨hmem, hstat, hdeps⟩
      refine ⟨hmem, ?_⟩
      rw [Bool.and_eq_true]
      refine ⟨?_, (depsMet_iff _ _).mpr hdeps⟩
      rcases hstat with h | h
      · simp [h]
      · simp [h]
  · intro t ht d hd u hu
    have := ((hperm.mem_iff).mp ht)
    have hpred := (List.mem_filter.mp this).2
    rw [Bool.and_eq_true] at hpred
    rcases (depsMet_iff _ _).mp hpred.2 d hd with ⟨v, hv, hs⟩
    rw [hu] at hv
    cases hv
    exact hs

/-! ## Reachable states of the core

`OrchStep` is one call of a mutating entry point of the core (with arbitrary
arguments); `Relation.ReflTransGen (OrchStep collab)` is the set of states
reachable by any call sequence. -/

inductive OrchStep (collab : Collaborators) : AgentOrchestrator → AgentOrchestrator → Prop
  | planStep (st : AgentOrchestrator) (now : Nat) (goal description : String)
      (context : Option Params) :
      OrchStep collab st
        { st with planner := (planWorkflow st.planner now goal description context).2 }
  | updateStep (st : AgentOrchestrator) (wid tid : String) (status : TaskStatus)
      (result : Option Params) (error : Option String) (now : Nat) :
      OrchStep collab st
        { st with planner := (updateTaskStatus st.planner wid tid status result error now).2 }
  | cancelStep (st : AgentOrchestrator) (wid : String) :
      OrchStep collab st (cancelWorkflow st wid).2
  | retryStep (st : AgentOrchestrator) (wid tid : String) :
      OrchStep collab st (retryFailedTask st wid tid).2
  | execTaskStep (st : AgentOrchestrator) (now : Nat) (wid : String) (task : Task)
      (res : ExecutionResult) :
      OrchStep collab st (execTask st collab now wid task res).2.1
  | execTasksStep (st : AgentOrchestrator) (wf : Workflow) (n1 n2 : Nat) :
      OrchStep collab st (executeWorkflowTasks st collab wf n1 n2).2
  | executeStep (st : AgentOrchestrator) (goal description : String)
      (context : Option Params) (n1 n2 n3 : Nat) :
      OrchStep collab st (executeWorkflow st collab goal description context n1 n2 n3).2

/-- All stored workflows satisfy `P`. -/
def WfInv (P : Workflow → Prop) (pst : PlannerAgent) : Prop :=
  ∀ p ∈ pst.workflows, P p.2

/-- The per-workflow effect of `update_task_status` preserves `P`. -/
def UpdPreserves (P : Workflow → Prop) : Prop :=
  ∀ (wf : Workflow) (tid : String) (status : TaskStatus) (result : Option Params)
    (error : Option String) (now : Nat), P wf →
    P { wf with tasks := alistModify wf.tasks tid (applyStatus status result error now) }

/-- The per-workflow effect of `cancel_workflow` preserves `P`. -/
def CancelPreserves (P : Workflow → Prop) : Prop :=
  ∀ wf : Workflow, P wf →
    P { wf with tasks := wf.tasks.map (fun p =>
        (p.1,
         if p.2.status == .pending || p.2.status == .ready then
           { p.2 with status := .blocked }
         else p.2)) }

/-- The per-workflow effect of `retry_failed_task` preserves `P`. -/
def RetryPreserves (P : Workflow → Prop) : Prop :=
  ∀ (wf : Workflow) (tid : String), P wf →
    P { wf with tasks := alistModify wf.tasks tid (fun t => { t with status := .pending }) }

/-- Every workflow the planner produces satisfies `P`. -/
def PlanSat (P : Workflow → Prop) : Prop :=
  ∀ (pst : PlannerAgent) (now : Nat) (goal description : String)
    (context : Option Params), P (planWorkflow pst now goal description context).1

theorem decomposeGoal_workflows (pst : PlannerAgent) (now : Nat) (goal : String) :
    (decomposeGoal pst now goal).2.workflows = pst.workflows := by
  unfold decomposeGoal
  rcases h1 : (if strIn "briefing" (strLower goal) || strIn "summary" (strLower goal) ||
      strIn "report" (strLower goal) then createBriefingTasks pst now else ([], pst))
    with ⟨ts1, st1⟩
  have hw1 : st1.workflows = pst.workflows := by
    by_cases hc : (strIn "briefing" (strLower goal) || strIn "summary" (strLower goal) ||
        strIn "report" (strLower goal)) = true
    · rw [if_pos hc] at h1
      rw [show st1 = (createBriefingTasks pst now).2 from by rw [h1]]
      rfl
    · rw [if_neg hc] at h1
      injection h1 with hts hst
      rw [← hst]
  rcases h2 : (if strIn "analyze" (strLower goal) || strIn "analysis" (strLower goal) ||
      strIn "examine" (strLower goal) then createAnalysisTasks st1 now else ([], st1))
    with ⟨ts2, st2⟩
  have hw2 : st2.workflows = pst.workflows := by
    by_cases hc : (strIn "analyze" (strLower goal) || strIn "analysis" (strLower goal) ||
        strIn "examine" (strLower goal)) = true
    · rw [if_pos hc] at h2
      rw [show st2 = (createAnalysisTasks st1 now).2 from by rw [h2]]
      exact hw1
    · rw [if_neg hc] at h2
      injection h2 with hts hst
      rw [← hst]
      exact hw1
  rcases h3 : (if strIn "search" (strLower goal) || strIn "find" (strLower goal) ||
      strIn "retrieve" (strLower goal) || strIn "query" (strLower goal) then
      createRetrievalTasks st2 now else ([], st2)) with ⟨ts3, st3⟩
  have hw3 : st3.workflows = pst.workflows := by
    by_cases hc : (strIn "search" (strLower goal) || strIn "find" (strLower goal) ||
        strIn "retrieve" (strLower goal) || strIn "query" (strLower goal)) = true
    · rw [if_pos hc] at h3
      rw [show st3 = (createRetrievalTasks st2 now).2 from by rw [h3]]
      exact hw2
    · rw [if_neg hc] at h3
      injection h3 with hts hst
      rw [← hst]
      exact hw2
  rcases h4 : (if strIn "generate" (strLower goal) || strIn "create" (strLower goal) ||
      strIn "write" (strLower goal) then createGenerationTasks st3 now else ([], st3))
    with ⟨ts4, st4⟩
  have hw4 : st4.workflows = pst.workflows := by
    by_cases hc : (strIn "generate" (strLower goal) || strIn "create" (strLower goal) ||
        strIn "write" (strLower goal)) = true
    · rw [if_pos hc] at h4
      rw [show st4 = (createGenerationTasks st3 now).2 from by rw [h4]]
      exact hw3
    · rw [if_neg hc] at h4
      injection h4 with hts hst
      rw [← hst]
      exact hw3
  rcases h5 : (if strIn "update" (strLower goal) || strIn "refresh" (strLower goal) ||
      strIn "sync" (strLower goal) then createUpdateTasks st4 now else ([], st4))
    with ⟨ts5, st5⟩
  have hw5 : st5.workflows = pst.workflows := by
    by_cases hc : (strIn "update" (strLower goal) || strIn "refresh" (strLower goal) ||
        strIn "sync" (strLower goal)) = true
    · rw [if_pos hc] at h5
      rw [show st5 = (createUpdateTasks st4 now).2 from by rw [h5]]
      exact hw4
    · rw [if_neg hc] at h5
      injection h5 with hts hst
      rw [← hst]
      exact hw4
  simp only [h1, h2, h3, h4, h5]
  by_cases he : (ts1 ++ ts2 ++ ts3 ++ ts4 ++ ts5).isEmpty = true
  · rw [if_pos he]
    rw [show (createDefaultTasks st5 now goal).2 = { st5 with task_counter := st5.task_counter + 3 } from rfl]
    exact hw5
  · rw [if_neg he]
    exact hw5

/-- Lifecycle fields of a freshly generated template task. -/
def FreshTask (t : Task) : Prop :=
  t.status = .pending ∧ t.started_at = none ∧ t.completed_at = none ∧
  t.result = none ∧ t.error = none

theorem createBriefingTasks_fresh (pst : PlannerAgent) (now : Nat) :
    ∀ t ∈ (createBriefingTasks pst now).1, FreshTask t := by
  intro t ht
  simp only [createBriefingTasks, nextTaskId, List.mem_cons, List.not_mem_nil,
    or_false] at ht
  rcases ht with rfl | rfl | rfl | rfl <;> exact ⟨rfl, rfl, rfl, rfl, rfl⟩

theorem createAnalysisTasks_fresh (pst : PlannerAgent) (now : Nat) :
    ∀ t ∈ (createAnalysisTasks pst now).1, FreshTask t := by
  intro t ht
  simp only [createAnalysisTasks, nextTaskId, List.mem_cons, List.not_mem_nil,
    or_false] at ht
  rcases ht with rfl | rfl | rfl <;> exact ⟨rfl, rfl, rfl, rfl, rfl⟩

theorem createRetrievalTasks_fresh (pst : PlannerAgent) (now : Nat) :
    ∀ t ∈ (createRetrievalTasks pst now).1, FreshTask t := by
  intro t ht
  simp only [createRetrievalTasks, nextTaskId, List.mem_cons, List.not_mem_nil,
    or_false] at ht
  rcases ht with rfl | rfl | rfl <;> exact ⟨rfl, rfl, rfl, rfl, rfl⟩

theorem createGenerationTasks_fresh (pst : PlannerAgent) (now : Nat) :
    ∀ t ∈ (createGenerationTasks pst now).1, FreshTask t := by
  intro t ht
  simp only [createGenerationTasks, nextTaskId, List.mem_cons, List.not_mem_nil,
    or_false] at ht
  rcases ht with rfl | rfl | rfl <;> exact ⟨rfl, rfl, rfl, rfl, rfl⟩

theorem createUpdateTasks_fresh (pst : PlannerAgent) (now : Nat) :
    ∀ t ∈ (createUpdateTasks pst now).1, FreshTask t := by
  intro t ht
  simp only [createUpdateTasks, nextTaskId, List.mem_cons, List.not_mem_nil,
    or_false] at ht
  rcases ht with rfl | rfl | rfl <;> exact ⟨rfl, rfl, rfl, rfl, rfl⟩

theorem createDefaultTasks_fresh (pst : PlannerAgent) (now : Nat) (goal : String) :
    ∀ t ∈ (createDefaultTasks pst now goal).1, FreshTask t := by
  intro t ht
  simp only [createDefaultTasks, nextTaskId, List.mem_cons, List.not_mem_nil,
    or_false] at ht
  rcases ht with rfl | rfl | rfl <;> exact ⟨rfl, rfl, rfl, rfl, rfl⟩

theorem decomposeGoal_fresh (pst : PlannerAgent) (now : Nat) (goal : String) :
    ∀ t ∈ (decomposeGoal pst now goal).1, FreshTask t := by
  unfold decomposeGoal
  rcases h1 : (if strIn "briefing" (strLower goal) || strIn "summary" (strLower goal) ||
      strIn "report" (strLower goal) then createBriefingTasks pst now else ([], pst))
    with ⟨ts1, st1⟩
  have hf1 : ∀ t ∈ ts1, FreshTask t := by
    by_cases hc : (strIn "briefing" (strLower goal) || strIn "summary" (strLower goal) ||
        strIn "report" (strLower goal)) = true
    · rw [if_pos hc] at h1
      have he : ts1 = (createBriefingTasks pst now).1 := by rw [h1]
      rw [he]
      exact createBriefingTasks_fresh pst now
    · rw [if_neg hc] at h1
      injection h1 with hts hst
      rw [← hts]
      intro t ht
      simp at ht
  rcases h2 : (if strIn "analyze" (strLower goal) || strIn "analysis" (strLower goal) ||
      strIn "examine" (strLower goal) then createAnalysisTasks st1 now else ([], st1))
    with ⟨ts2, st2⟩
  have hf2 : ∀ t ∈ ts2, FreshTask t := by
    by_cases hc : (strIn "analyze" (strLower goal) || strIn "analysis" (strLower goal) ||
        strIn "examine" (strLower goal)) = true
    · rw [if_pos hc] at h2
      have he : ts2 = (createAnalysisTasks st1 now).1 := by rw [h2]
      rw [he]
      exact createAnalysisTasks_fresh st1 now
    · rw [if_neg hc] at h2
      injection h2 with hts hst
      rw [← hts]
      intro t ht
      simp at ht
  rcases h3 : (if strIn "search" (strLower goal) || strIn "find" (strLower goal) ||
      strIn "retrieve" (strLower goal) || strIn "query" (strLower goal) then
      createRetrievalTasks st2 now else ([], st2)) with ⟨ts3, st3⟩
  have hf3 : ∀ t ∈ ts3, FreshTask t := by
    by_cases hc : (strIn "search" (strLower goal) || strIn "find" (strLower goal) ||
        strIn "retrieve" (strLower goal) || strIn "query" (strLower goal)) = true
    · rw [if_pos hc] at h3
      have he : ts3 = (createRetrievalTasks st2 now).1 := by rw [h3]
      rw [he]
      exact createRetrievalTasks_fresh st2 now
    · rw [if_neg hc] at h3
      injection h3 with hts hst
      rw [← hts]
      intro t ht
      simp at ht
  rcases h4 : (if strIn "generate" (strLower goal) || strIn "create" (strLower goal) ||
      strIn "write" (strLower goal) then createGenerationTasks st3 now else ([], st3))
    with ⟨ts4, st4⟩
  have hf4 : ∀ t ∈ ts4, FreshTask t := by
    by_cases hc : (strIn "generate" (strLower goal) || strIn "create" (strLower goal) ||
        strIn "write" (strLower goal)) = true
    · rw [if_pos hc] at h4
      have he : ts4 = (createGenerationTasks st3 now).1 := by rw [h4]
      rw [he]
      exact createGenerationTasks_fresh st3 now
    · rw [if_neg hc] at h4
      injection h4 with hts hst
      rw [← hts]
      intro t ht
      simp at ht
  rcases h5 : (if strIn "update" (strLower goal) || strIn "refresh" (strLower goal) ||
      strIn "sync" (strLower goal) then createUpdateTasks st4 now else ([], st4))
    with ⟨ts5, st5⟩
  have hf5 : ∀ t ∈ ts5, FreshTask t := by
    by_cases hc : (strIn "update" (strLower goal) || strIn "refresh" (strLower goal) ||
        strIn "sync" (strLower goal)) = true
    · rw [if_pos hc] at h5
      have he : ts5 = (createUpdateTasks st4 now).1 := by rw [h5]
      rw [he]
      exact createUpdateTasks_fresh st4 now
    · rw [if_neg hc] at h5
      injection h5 with hts hst
      rw [← hts]
      intro t ht
      simp at ht
  simp only [h1, h2, h3, h4, h5]
  by_cases he : (ts1 ++ ts2 ++ ts3 ++ ts4 ++ ts5).isEmpty = true
  · rw [if_pos he]
    exact createDefaultTasks_fresh st5 now goal
  · rw [if_neg he]
    intro t ht
    simp only [List.mem_append] at ht
    rcases ht with ((((ht | ht) | ht) | ht) | ht)
    · exact hf1 t ht
    · exact hf2 t ht
    · exact hf3 t ht
    · exact hf4 t ht
    · exact hf5 t ht

theorem resolveDependencies_preserves (Q : Task → Prop)
    (hQ : ∀ (t : Task) (deps : List String), Q t → Q { t with dependencies := deps })
    (ts : List Task) (hts : ∀ t ∈ ts, Q t) :
    ∀ t ∈ resolveDependencies ts, Q t := by
  unfold resolveDependencies
  generalize (ts.map fun t => (t.action, t.id)) = ps
  induction ps generalizing ts with
  | nil => simpa using hts
  | cons p ps ih =>
    simp only [List.foldl_cons]
    apply ih
    cases hg : alistGet actionSequences p.1 with
    | none => simpa [hg] using hts
    | some da =>
      simp only [hg]
      intro t ht
      rcases List.mem_map.mp ht with ⟨t0, ht0, hval⟩
      rw [← hval]
      by_cases hcond : (da.contains t0.action && t0.id != p.2 &&
          !t0.dependencies.contains p.2) = true
      · rw [if_pos hcond]
        exact hQ t0 _ (hts t0 ht0)
      · rw [if_neg hcond]
        exact hts t0 ht0

theorem planWorkflow_shape (pst : PlannerAgent) (now : Nat)
    (goal description : String) (context : Option Params) :
    (planWorkflow pst now goal description context).1.tasks =
      (resolveDependencies (decomposeGoal pst now goal).1).map (fun t => (t.id, t)) ∧
    (planWorkflow pst now goal description context).1.status = "ready" ∧
    (planWorkflow pst now goal description context).1.started_at = none ∧
    (planWorkflow pst now goal description context).1.completed_at = none ∧
    (planWorkflow pst now goal description context).1.actual_duration = none ∧
    (planWorkflow pst now goal description context).2.workflows =
      alistPut pst.workflows (generateWorkflowId pst now)
        (planWorkflow pst now goal description context).1 := by
  rcases h : decomposeGoal pst now goal with ⟨tasks, pst'⟩
  have hw : pst'.workflows = pst.workflows := by
    have := decomposeGoal_workflows pst now goal
    rw [h] at this
    exact this
  simp only [planWorkflow, h]
  exact ⟨by trivial, by trivial, by trivial, by trivial, by trivial, by rw [hw]⟩

theorem wfInv_alistModify {P : Workflow → Prop} {l : List (String × Workflow)}
    (hin : ∀ p ∈ l, P p.2) (k : String) (f : Workflow → Workflow)
    (hf : ∀ wf, P wf → P (f wf)) :
    ∀ p ∈ alistModify l k f, P p.2 := by
  intro p hp
  rcases alistModify_mem l k f p hp with hp' | ⟨q, hq, hval⟩
  · exact hin p hp'
  · rw [hval]
    exact hf q.2 (hin q hq)

theorem updateTaskStatus_wfInv {P : Workflow → Prop} (hupd : UpdPreserves P)
    (pst : PlannerAgent) (wid tid : String) (status : TaskStatus)
    (result : Option Params) (error : Option String) (now : Nat)
    (hin : WfInv P pst) :
    WfInv P (updateTaskStatus pst wid tid status result error now).2 := by
  cases hg : alistGet pst.workflows wid with
  | none =>
    simp only [updateTaskStatus, hg]
    exact hin
  | some wf =>
    cases ht : alistGet wf.tasks tid with
    | none =>
      simp only [updateTaskStatus, hg, ht]
      exact hin
    | some t =>
      simp only [updateTaskStatus, hg, ht]
      exact wfInv_alistModify hin wid _
        (fun wf hwf => hupd wf tid status result error now hwf)

theorem cancelWorkflow_wfInv {P : Workflow → Prop} (hcan : CancelPreserves P)
    (st : AgentOrchestrator) (wid : String) (hin : WfInv P st.planner) :
    WfInv P (cancelWorkflow st wid).2.planner := by
  cases hg : alistGet st.planner.workflows wid with
  | none =>
    simp only [cancelWorkflow, hg]
    exact hin
  | some wf =>
    simp only [cancelWorkflow, hg]
    exact wfInv_alistModify hin wid _ (fun wf hwf => hcan wf hwf)

theorem retryFailedTask_wfInv {P : Workflow → Prop} (hret : RetryPreserves P)
    (st : AgentOrchestrator) (wid tid : String) (hin : WfInv P st.planner) :
    WfInv P (retryFailedTask st wid tid).2.planner := by
  cases hg : alistGet st.planner.workflows wid with
  | none =>
    simp only [retryFailedTask, hg]
    exact hin
  | some wf =>
    cases ht : alistGet wf.tasks tid with
    | none =>
      simp only [retryFailedTask, hg, ht]
      exact hin
    | some t =>
      by_cases hs : (t.status != TaskStatus.failed) = true
      · simp only [retryFailedTask, hg, ht, hs, if_true]
        exact hin
      · simp only [retryFailedTask, hg, ht, hs, Bool.false_eq_true, if_false]
        exact wfInv_alistModify hin wid _ (fun wf hwf => hret wf tid hwf)

theorem planWorkflow_wfInv {P : Workflow → Prop} (hplan : PlanSat P)
    (pst : PlannerAgent) (now : Nat) (goal description : String)
    (context : Option Params) (hin : WfInv P pst) :
    WfInv P (planWorkflow pst now goal description context).2 := by
  intro p hp
  rw [(planWorkflow_shape pst now goal description context).2.2.2.2.2] at hp
  rcases alistPut_mem _ _ _ _ hp with hp' | hval
  · exact hin p hp'
  · rw [hval]
    exact hplan pst now goal description context

theorem execTask_wfInv {P : Workflow → Prop} (hupd : UpdPreserves P)
    (st : AgentOrchestrator) (collab : Collaborators) (now : Nat)
    (wid : String) (task : Task) (res : ExecutionResult)
    (hin : WfInv P st.planner) :
    WfInv P (execTask st collab now wid task res).2.1.planner := by
  have h1 : WfInv P
      (updateTaskStatus st.planner wid task.id .inProgress none none now).2 :=
    updateTaskStatus_wfInv hupd _ _ _ _ _ _ _ hin
  unfold execTask
  cases hh : ((alistGet { st with
      planner := (updateTaskStatus st.planner wid task.id .inProgress
        none none now).2 }.handlers task.action).getD defaultHandler)
      task.parameters with
  | error e =>
    simp only [hh]
    exact updateTaskStatus_wfInv hupd _ _ _ _ _ _ _ h1
  | ok tr =>
    simp only [hh]
    exact updateTaskStatus_wfInv hupd _ _ _ _ _ _ _ h1

theorem dispatchPass_wfInv {P : Workflow → Prop} (hupd : UpdPreserves P)
    (collab : Collaborators) (now : Nat) (wid : String) (snapshot : List Task) :
    ∀ acc : AgentOrchestrator × ExecutionResult × List String,
      WfInv P acc.1.planner →
      WfInv P (dispatchPass collab now wid snapshot acc).1.planner := by
  induction snapshot with
  | nil =>
    intro acc hin
    simpa [dispatchPass] using hin
  | cons t ts ih =>
    intro acc hin
    rcases acc with ⟨st, res, executed⟩
    have hstep : WfInv P (execTask st collab now wid t res).2.1.planner :=
      execTask_wfInv hupd st collab now wid t res hin
    rcases he : execTask st collab now wid t res with ⟨succ, st', res'⟩
    rw [he] at hstep
    unfold dispatchPass at ih ⊢
    simp only [List.foldl_cons, he]
    exact ih _ hstep

theorem seqLoop_wfInv {P : Workflow → Prop} (hupd : UpdPreserves P)
    (collab : Collaborators) (now : Nat) (wf0 : Workflow) :
    ∀ (fuel : Nat) (st : AgentOrchestrator) (res : ExecutionResult)
      (ex : List String) (st' : AgentOrchestrator) (res' : ExecutionResult),
      seqLoop collab now wf0 fuel st res ex = .ok (st', res') →
      WfInv P st.planner → WfInv P st'.planner := by
  intro fuel
  induction fuel with
  | zero =>
    intro st res ex st' res' h hin
    simp only [seqLoop, Except.ok.injEq, Prod.mk.injEq] at h
    rw [← h.1]
    exact hin
  | succ fuel ih =>
    intro st res ex st' res' h hin
    simp only [seqLoop] at h
    by_cases hlen :
        ex.length < ((alistGet st.planner.workflows wf0.id).getD wf0).tasks.length
    · rw [if_pos hlen] at h
      by_cases hrne :
          ((((alistGet st.planner.workflows wf0.id).getD wf0).get_ready_tasks).filter
            (fun t => !(ex.contains t.id))).isEmpty = true
      · rw [if_pos hrne] at h
        by_cases hee : ex.isEmpty = true
        · rw [if_pos hee] at h
          cases h
        · rw [if_neg hee] at h
          simp only [Except.ok.injEq, Prod.mk.injEq] at h
          rw [← h.1]
          exact hin
      · rw [if_neg hrne] at h
        exact ih _ _ _ _ _ h
          (dispatchPass_wfInv hupd collab now wf0.id _ _ hin)
    · rw [if_neg hlen] at h
      simp only [Except.ok.injEq, Prod.mk.injEq] at h
      rw [← h.1]
      exact hin

theorem dispatchStrategy_wfInv {P : Workflow → Prop} (hupd : UpdPreserves P)
    (st : AgentOrchestrator) (collab : Collaborators) (now : Nat)
    (wf : Workflow) (res : ExecutionResult)
    (st' : AgentOrchestrator) (res' : ExecutionResult)
    (h : dispatchStrategy st collab now wf res = .ok (st', res'))
    (hin : WfInv P st.planner) : WfInv P st'.planner := by
  unfold dispatchStrategy at h
  cases hm : st.config.mode with
  | sequential =>
    simp only [hm, executeSequential] at h
    exact seqLoop_wfInv hupd collab now wf _ _ _ _ _ _ h hin
  | parallel =>
    simp only [hm, executeParallel, ← seqLoop_eq_parLoop] at h
    exact seqLoop_wfInv hupd collab now wf _ _ _ _ _ _ h hin
  | hybrid =>
    simp only [hm, executeHybrid, executeSequential] at h
    exact seqLoop_wfInv hupd collab now wf _ _ _ _ _ _ h hin

theorem executeWorkflowTasks_wfInv {P : Workflow → Prop} (hupd : UpdPreserves P)
    (st : AgentOrchestrator) (collab : Collaborators) (wf : Workflow)
    (n1 n2 : Nat) (hin : WfInv P st.planner) :
    WfInv P (executeWorkflowTasks st collab wf n1 n2).2.planner := by
  unfold executeWorkflowTasks
  by_cases he : wf.tasks.isEmpty = true
  · rw [if_pos he]
    exact hin
  · rw [if_neg he]
    cases hd : dispatchStrategy st collab n1 wf
        { workflow_id := wf.id, success := false, status := "running",
          started_at := n1, tasks_total := wf.tasks.length } with
    | ok pr =>
      simp only [hd]
      exact dispatchStrategy_wfInv hupd st collab n1 wf _ pr.1 pr.2
        (by rw [hd]) hin
    | error e =>
      simp only [hd]
      exact hin

theorem executeWorkflow_wfInv {P : Workflow → Prop} (hupd : UpdPreserves P)
    (hplan : PlanSat P) (st : AgentOrchestrator) (collab : Collaborators)
    (goal description : String) (context : Option Params) (n1 n2 n3 : Nat)
    (hin : WfInv P st.planner) :
    WfInv P (executeWorkflow st collab goal description context n1 n2 n3).2.planner := by
  have h1 : WfInv P (planWorkflow st.planner n1 goal description context).2 :=
    planWorkflow_wfInv hplan _ _ _ _ _ hin
  unfold executeWorkflow
  rcases hp : planWorkflow st.planner n1 goal description context with ⟨wf, planner'⟩
  rw [hp] at h1
  simp only [hp]
  rcases hx : executeWorkflowTasks { st with planner := planner' } collab wf n2 n3
    with ⟨res2, st2⟩
  have h2 := executeWorkflowTasks_wfInv hupd { st with planner := planner' }
    collab wf n2 n3 h1
  rw [hx] at h2
  simp only [hx]
  exact h2

/-- Any state reachable (by any sequence of core operations) from a state
whose stored workflows all satisfy `P` still has all stored workflows
satisfying `P`, provided `P` is preserved by the per-workflow effect of each
mutating operation and holds of every planner-produced workflow. -/
theorem reachable_wfInv {P : Workflow → Prop} (hupd : UpdPreserves P)
    (hcan : CancelPreserves P) (hret : RetryPreserves P) (hplan : PlanSat P)
    {collab : Collaborators} {st0 st : AgentOrchestrator}
    (hreach : Relation.ReflTransGen (OrchStep collab) st0 st)
    (hinit : WfInv P st0.planner) : WfInv P st.planner := by
  induction hreach with
  | refl => exact hinit
  | tail hsteps hstep ih =>
    cases hstep with
    | planStep now goal description context =>
      exact planWorkflow_wfInv hplan _ _ _ _ _ ih
    | updateStep wid tid status result error now =>
      exact updateTaskStatus_wfInv hupd _ _ _ _ _ _ _ ih
    | cancelStep wid => exact cancelWorkflow_wfInv hcan _ _ ih
    | retryStep wid tid => exact retryFailedTask_wfInv hret _ _ _ ih
    | execTaskStep now wid task res =>
      exact execTask_wfInv hupd _ _ _ _ _ _ ih
    | execTasksStep wf n1 n2 =>
      exact executeWorkflowTasks_wfInv hupd _ _ _ _ _ ih
    | executeStep goal description context n1 n2 n3 =>
      exact executeWorkflow_wfInv hupd hplan _ _ _ _ _ _ _ _ ih

/-! ## C2 — task lifecycle-field invariant over reachable states -/

/-- The lifecycle-field invariant that actually holds of every reachable
task: terminal statuses imply a completion timestamp, and `result` / `error`
are only ever set together with one. -/
def TaskLifecycleInv (wf : Workflow) : Prop :=
  ∀ p ∈ wf.tasks,
    ((p.2.status = TaskStatus.completed ∨ p.2.status = TaskStatus.failed) →
      p.2.completed_at.isSome) ∧
    (p.2.result.isSome → p.2.completed_at.isSome) ∧
    (p.2.error.isSome → p.2.completed_at.isSome)

theorem taskLifecycleInv_upd : UpdPreserves TaskLifecycleInv := by
  intro wf tid status result error now hwf p hp
  rcases alistModify_mem _ _ _ _ hp with hp' | ⟨q, hq, hval⟩
  · exact hwf p hp'
  · have hold := hwf q hq
    rw [hval]
    cases status with
    | completed => simp [applyStatus]
    | failed => simp [applyStatus]
    | inProgress =>
      refine ⟨by simp [applyStatus], ?_, ?_⟩
      · simpa [applyStatus] using hold.2.1
      · simpa [applyStatus] using hold.2.2
    | pending =>
      refine ⟨by simp [applyStatus], ?_, ?_⟩
      · simpa [applyStatus] using hold.2.1
      · simpa [applyStatus] using hold.2.2
    | ready =>
      refine ⟨by simp [applyStatus], ?_, ?_⟩
      · simpa [applyStatus] using hold.2.1
      · simpa [applyStatus] using hold.2.2
    | blocked =>
      refine ⟨by simp [applyStatus], ?_, ?_⟩
      · simpa [applyStatus] using hold.2.1
      · simpa [applyStatus] using hold.2.2

theorem taskLifecycleInv_cancel : CancelPreserves TaskLifecycleInv := by
  intro wf hwf p hp
  rcases List.mem_map.mp hp with ⟨q, hq, hval⟩
  have hold := hwf q hq
  rw [← hval]
  by_cases hc : (q.2.status == TaskStatus.pending ||
      q.2.status == TaskStatus.ready) = true
  · refine ⟨by simp [hc], ?_, ?_⟩
    · simpa [hc] using hold.2.1
    · simpa [hc] using hold.2.2
  · simp only [hc, Bool.false_eq_true, if_false]
    exact hold

theorem taskLifecycleInv_retry : RetryPreserves TaskLifecycleInv := by
  intro wf tid hwf p hp
  rcases alistModify_mem _ _ _ _ hp with hp' | ⟨q, hq, hval⟩
  · exact hwf p hp'
  · have hold := hwf q hq
    rw [hval]
    refine ⟨by simp, ?_, ?_⟩
    · simpa using hold.2.1
    · simpa using hold.2.2

theorem taskLifecycleInv_plan : PlanSat TaskLifecycleInv := by
  intro pst now goal description context p hp
  rw [(planWorkflow_shape pst now goal description context).1] at hp
  rcases List.mem_map.mp hp with ⟨t, ht, hval⟩
  have hfresh : ∀ u ∈ resolveDependencies (decomposeGoal pst now goal).1,
      FreshTask u := by
    refine resolveDependencies_preserves FreshTask ?_ _
      (decomposeGoal_fresh pst now goal)
    intro u deps hu
    exact ⟨hu.1, hu.2.1, hu.2.2.1, hu.2.2.2.1, hu.2.2.2.2⟩
  have hf := hfresh t ht
  rw [← hval]
  refine ⟨?_, ?_, ?_⟩
  · intro hst
    rw [hf.1] at hst
    rcases hst with hst | hst <;> cases hst
  · intro hr
    rw [hf.2.2.2.1] at hr
    cases hr
  · intro he
    rw [hf.2.2.2.2] at he
    cases he

/-- C2 (amended): over every state reachable from a fresh orchestrator by
any sequence of core operations, every stored task satisfies: if its status
is COMPLETED or FAILED then `completed_at` is set, and `result` (resp.
`error`) is non-null only when `completed_at` is set.  The original claim's
stronger clauses fail: `update_task_status` can mark a task COMPLETED with
its `result` argument defaulted to null, and `retry_failed_task` resets a
FAILED task to PENDING while retaining its non-null `error` and
`completed_at` (see the counterexample). -/
theorem c2_amended_lifecycle (collab : Collaborators) (cfg : AgentExecutionConfig)
    (st : AgentOrchestrator)
    (hreach : Relation.ReflTransGen (OrchStep collab) (mkOrchestrator cfg) st) :
    ∀ p ∈ st.planner.workflows, ∀ q ∈ p.2.tasks,
      ((q.2.status = TaskStatus.completed ∨ q.2.status = TaskStatus.failed) →
        q.2.completed_at.isSome) ∧
      (q.2.result.isSome → q.2.completed_at.isSome) ∧
      (q.2.error.isSome → q.2.completed_at.isSome) := by
  have := reachable_wfInv taskLifecycleInv_upd taskLifecycleInv_cancel
    taskLifecycleInv_retry taskLifecycleInv_plan hreach
    (by intro p hp; simp [mkOrchestrator] at hp)
  exact fun p hp => this p hp

/-- Fresh orchestrator for the C2 counterexample. -/
def c2St0 : AgentOrchestrator := mkOrchestrator {}

/-- After planning the goal "x" (default 3-task template). -/
def c2St1 : AgentOrchestrator :=
  { c2St0 with planner := (planWorkflow c2St0.planner 0 "x" "" none).2 }

/-- After marking the first task FAILED with an error message. -/
def c2St2 : AgentOrchestrator :=
  { c2St1 with planner :=
      (updateTaskStatus c2St1.planner "workflow_0_1" "task_1" .failed none
        (some "boom") 5).2 }

/-- After retrying the failed task. -/
def c2St3 : AgentOrchestrator := (retryFailedTask c2St2 "workflow_0_1" "task_1").2

/-- C2 counterexample: a reachable state (plan, fail a task, retry it) holds
a PENDING task whose `error` is non-null — refuting the claim that PENDING
tasks have null `result` and `error`. -/
theorem c2_counterexample :
    Relation.ReflTransGen (OrchStep trivialCollab) c2St0 c2St3 ∧
    ((alistGet c2St3.planner.workflows "workflow_0_1").bind
        (fun wf => alistGet wf.tasks "task_1")).map
      (fun t => (t.status, t.error, t.completed_at)) =
      some (.pending, some "boom", some 5) := by
  constructor
  · exact Relation.ReflTransGen.head (OrchStep.planStep c2St0 0 "x" "" none)
      (Relation.ReflTransGen.head
        (OrchStep.updateStep c2St1 "workflow_0_1" "task_1" .failed none
          (some "boom") 5)
        (Relation.ReflTransGen.single
          (OrchStep.retryStep c2St2 "workflow_0_1" "task_1")))
  · decide

/-! ## C10 — the stored workflow's lifecycle fields are frozen at "ready" -/

/-- Workflow-level lifecycle fields as left by the planner. -/
def WorkflowMetaInv (wf : Workflow) : Prop :=
  wf.status = "ready" ∧ wf.started_at = none ∧ wf.completed_at = none ∧
  wf.actual_duration = none

theorem workflowMetaInv_upd : UpdPreserves WorkflowMetaInv :=
  fun _ _ _ _ _ _ h => h

theorem workflowMetaInv_cancel : CancelPreserves WorkflowMetaInv :=
  fun _ h => h

theorem workflowMetaInv_retry : RetryPreserves WorkflowMetaInv :=
  fun _ _ h => h

theorem workflowMetaInv_plan : PlanSat WorkflowMetaInv := by
  intro pst now goal description context
  have h := planWorkflow_shape pst now goal description context
  exact ⟨h.2.1, h.2.2.1, h.2.2.2.1, h.2.2.2.2.1⟩

/-- C10: `plan_workflow` returns (and stores) workflows with status "ready",
and no subsequent core operation ever reassigns the workflow-level `status`,
`started_at`, `completed_at` or `actual_duration` fields: in every reachable
state all stored workflows still carry status "ready" and null workflow
timestamps — only per-task state and the ExecutionResult change during
execution. -/
theorem c10_workflow_status_frozen :
    (∀ (pst : PlannerAgent) (now : Nat) (goal description : String)
      (context : Option Params),
      (planWorkflow pst now goal description context).1.status = "ready" ∧
      (planWorkflow pst now goal description context).1.started_at = none ∧
      (planWorkflow pst now goal description context).1.completed_at = none ∧
      (planWorkflow pst now goal description context).1.actual_duration = none) ∧
    (∀ (collab : Collaborators) (cfg : AgentExecutionConfig)
      (st : AgentOrchestrator),
      Relation.ReflTransGen (OrchStep collab) (mkOrchestrator cfg) st →
      ∀ p ∈ st.planner.workflows,
        p.2.status = "ready" ∧ p.2.started_at = none ∧
        p.2.completed_at = none ∧ p.2.actual_duration = none) := by
  constructor
  · intro pst now goal description context
    exact workflowMetaInv_plan pst now goal description context
  · intro collab cfg st hreach
    exact reachable_wfInv workflowMetaInv_upd workflowMetaInv_cancel
      workflowMetaInv_retry workflowMetaInv_plan hreach
      (by intro p hp; simp [mkOrchestrator] at hp)

/-! ## Concrete states used by the witness theorems -/

/-- A completed demo task. -/
def demoTaskDone : Task :=
  { id := "A", status := .completed, completed_at := some 1, result := some [] }

/-- A pending demo task depending on the completed one. -/
def demoTaskPend : Task := { id := "B", dependencies := ["A"], priority := .high }

/-- A failed demo task. -/
def demoTaskFail : Task :=
  { id := "C", status := .failed, error := some "e", completed_at := some 2 }

/-- A demo workflow with a completed, a pending and a failed task. -/
def demoWf : Workflow :=
  { id := "w",
    tasks := [("A", demoTaskDone), ("B", demoTaskPend), ("C", demoTaskFail)],
    status := "ready" }

/-- A demo orchestrator holding `demoWf`. -/
def demoSt : AgentOrchestrator :=
  { config := {}, planner := { workflows := [("w", demoWf)] },
    handlers := registerActionHandlers }

theorem c3_witness :
    DepsClosed demoWf ∧
    ((demoWf.get_ready_tasks).Pairwise
      (fun a b => priorityRank a.priority ≤ priorityRank b.priority)) ∧
    ((demoWf.get_ready_tasks).Perm
      ((demoWf.tasks.map Prod.snd).filter (fun t =>
        (t.status == .ready || t.status == .pending) && depsMet demoWf.tasks t))) :=
  ⟨by unfold DepsClosed; decide,
    (c3_get_ready_tasks demoWf (by unfold DepsClosed; decide)).2.2.2.1,
    (c3_get_ready_tasks demoWf (by unfold DepsClosed; decide)).1⟩

theorem c4_witness :
    DepsClosed ((alistGet demoSt.planner.workflows "e").getD { id := "e" }) ∧
    executeWorkflowTasks demoSt trivialCollab { id := "e" } 1 2 =
      ({ workflow_id := "e", success := true, status := "completed",
         started_at := 1, completed_at := some 2, tasks_total := 0 }, demoSt) :=
  ⟨by unfold DepsClosed; decide,
    (c4_execute_workflow_tasks demoSt trivialCollab { id := "e" } 1 2
      (by unfold DepsClosed; decide)).1 rfl⟩

theorem c7_witness :
    alistGet demoSt.planner.workflows "w" = some demoWf ∧
    (cancelWorkflow demoSt "w").1 = true ∧
    alistGet demoSt.planner.workflows "zzz" = none ∧
    cancelWorkflow demoSt "zzz" = (false, demoSt) :=
  ⟨rfl, ((c7_cancel_workflow demoSt "w").2 demoWf rfl).1, rfl,
    (c7_cancel_workflow demoSt "zzz").1 rfl⟩

theorem c8_witness :
    alistGet (mkOrchestrator {}).planner.workflows "z" = none ∧
    getWorkflow (mkOrchestrator {}).planner "z" = none ∧
    getNextTasks (mkOrchestrator {}).planner "z" = [] ∧
    cancelWorkflow (mkOrchestrator {}) "z" = (false, mkOrchestrator {}) ∧
    alistGet (mkOrchestrator {}).executions "z" = none ∧
    getExecution (mkOrchestrator {}) "z" = none :=
  ⟨rfl, ((c8_unknown_id_sentinels (mkOrchestrator {}) "z").1 rfl).1,
    ((c8_unknown_id_sentinels (mkOrchestrator {}) "z").1 rfl).2.2.1,
    ((c8_unknown_id_sentinels (mkOrchestrator {}) "z").1 rfl).2.2.2.2.1,
    rfl,
    ((c8_unknown_id_sentinels (mkOrchestrator {}) "z").2.2 rfl).1⟩

theorem c9_witness :
    alistGet demoSt.planner.workflows "w" = some demoWf ∧
    alistGet demoWf.tasks "C" = some demoTaskFail ∧
    demoTaskFail.status = .failed ∧
    (retryFailedTask demoSt "w" "C").1 = true ∧
    retryFailedTask demoSt "zzz" "C" = (false, demoSt) :=
  ⟨rfl, rfl, rfl,
    ((((c9_retry_failed_task demoSt "w" "C").2 demoWf rfl).2 demoTaskFail rfl).2 rfl).1,
    (c9_retry_failed_task demoSt "zzz" "C").1 rfl⟩

/-- The C2 counterexample/witness state is reachable from a fresh
orchestrator: plan a workflow, fail its first task, retry it. -/
theorem c2_chain :
    Relation.ReflTransGen (OrchStep trivialCollab) c2St0 c2St3 :=
  Relation.ReflTransGen.head (OrchStep.planStep c2St0 0 "x" "" none)
    (Relation.ReflTransGen.head
      (OrchStep.updateStep c2St1 "workflow_0_1" "task_1" .failed none
        (some "boom") 5)
      (Relation.ReflTransGen.single
        (OrchStep.retryStep c2St2 "workflow_0_1" "task_1")))

theorem c2_witness :
    Relation.ReflTransGen (OrchStep trivialCollab) (mkOrchestrator {}) c2St3 ∧
    (∀ p ∈ c2St3.planner.workflows, ∀ q ∈ p.2.tasks,
      ((q.2.status = TaskStatus.completed ∨ q.2.status = TaskStatus.failed) →
        q.2.completed_at.isSome) ∧
      (q.2.result.isSome → q.2.completed_at.isSome) ∧
      (q.2.error.isSome → q.2.completed_at.isSome)) :=
  ⟨c2_chain, c2_amended_lifecycle trivialCollab {} c2St3 c2_chain⟩

/-- Orchestrator state after one planning call, for the C10 witness. -/
def c10St : AgentOrchestrator :=
  { mkOrchestrator {} with
    planner := (planWorkflow (mkOrchestrator {}).planner 0 "x" "" none).2 }

theorem c10_witness :
    Relation.ReflTransGen (OrchStep trivialCollab) (mkOrchestrator {}) c10St ∧
    (∀ p ∈ c10St.planner.workflows,
      p.2.status = "ready" ∧ p.2.started_at = none ∧
      p.2.completed_at = none ∧ p.2.actual_duration = none) :=
  ⟨Relation.ReflTransGen.single (OrchStep.planStep (mkOrchestrator {}) 0 "x" "" none),
    c10_workflow_status_frozen.2 trivialCollab {} c10St
      (Relation.ReflTransGen.single
        (OrchStep.planStep (mkOrchestrator {}) 0 "x" "" none))⟩

end AfundiOS
